import Mathlib

/-!
Shallow embedding of the op-query-builder core (an Overpass-QL query builder):
the shared `Element` base, the `Node`, `Way`, `Relation`, `Changeset` and `Area`
statement variants, the composite statements (`Union`, `Difference`, `Recurse`,
`Timeline`, `Adiff`) and the `Query` assembler, together with their `__str__`
render functions.

Modelling conventions:
- Python numbers (`int | float` unions) are modelled as `Int`; the claims under
  study only exercise integer inputs, and floats are not shallowly embeddable.
- `isinstance` checks are enforced by Lean types and are therefore omitted;
  every remaining `raise` of the source is kept.
- A builder method that can raise is embedded as
  `State -> Args -> Except (String × State) State`: `raise msg` becomes
  `.error (msg, s)` where `s` is the object state at the moment of the raise,
  so that atomicity-on-error is expressible.  Methods with no reachable raise
  are embedded as plain functions.
- Python truthiness (`if self.x:`) is embedded field-by-field exactly as the
  source uses it (`none`/`0`/`""`/`[]` are falsy; tuples and nonempty values
  are truthy); `is not None` becomes `Option.isSome`.
-/

namespace OPQB

/-- Python `s.strip()`: drop whitespace from both ends.  (The standard
`String.trim` is avoided throughout: it is implemented with byte-position
loops that do not reduce inside the kernel.) -/
def pyStrip (s : String) : String :=
  ⟨((s.data.dropWhile Char.isWhitespace).reverse.dropWhile Char.isWhitespace).reverse⟩

/-- Python `s.startswith(p)`. -/
def strStartsWith (s p : String) : Bool :=
  p.data.isPrefixOf s.data

/-- Python `s.endswith(p)`. -/
def strEndsWith (s p : String) : Bool :=
  p.data.isSuffixOf s.data

/-- `s[n:]` on strings. -/
def strDrop (s : String) (n : Nat) : String :=
  ⟨s.data.drop n⟩

/-- `s[:-n]` on strings. -/
def strDropRight (s : String) (n : Nat) : String :=
  ⟨(s.data.reverse.drop n).reverse⟩

/-- The worker of Python `s.split(sep)` for a nonempty separator, running on
character lists with explicit fuel (one unit per character, so
`length + 1` fuel never runs out). -/
def pySplitAux (sep : List Char) : Nat → List Char → List Char → List (List Char)
  | 0, s, acc => [acc.reverse ++ s]
  | fuel + 1, s, acc =>
    match s with
    | [] => [acc.reverse]
    | c :: cs =>
      if sep.isPrefixOf s then
        acc.reverse :: pySplitAux sep fuel (s.drop sep.length) []
      else pySplitAux sep fuel cs (c :: acc)

/-- Python `s.split(sep)` for a nonempty separator. -/
def pySplit (s sep : String) : List String :=
  (pySplitAux sep.data (s.data.length + 1) s.data []).map (fun l => ⟨l⟩)

/-- The worker of Python `s.split(sep, 1)`: the text before the first
occurrence of `sep` and the text after it, or `none` if `sep` does not occur. -/
def findSplit (sep : List Char) : Nat → List Char → List Char → Option (List Char × List Char)
  | 0, _, _ => none
  | fuel + 1, s, acc =>
    match s with
    | [] => none
    | c :: cs =>
      if sep.isPrefixOf s then some (acc.reverse, s.drop sep.length)
      else findSplit sep fuel cs (c :: acc)

/-- Python `needle in hay` for a nonempty needle. -/
def containsSubstr (hay needle : String) : Bool :=
  (findSplit needle.data (hay.data.length + 1) hay.data []).isSome

/-- Truthiness of an optional string, as Python evaluates `if self.x:`. -/
def optStrTruthy : Option String → Bool
  | none => false
  | some s => s ≠ ""

/-- Truthiness of an optional integer, as Python evaluates `if self.x:`
(note that `some 0` is falsy). -/
def optIntTruthy : Option Int → Bool
  | none => false
  | some n => n ≠ 0

/-- The reserved characters rejected in set names: `[ ] { } ( ) ;`. -/
def invalidSetChars : List Char := ['[', ']', '\x7b', '\x7d', '(', ')', ';']

/-- `any(char in set_name for char in '[]{}();')`. -/
def hasInvalidSetChar (s : String) : Bool :=
  s.data.any (fun c => invalidSetChars.contains c)

/-- `key.lstrip("!")`, kept as a character list for comparison purposes. -/
def normalizeKey (k : String) : List Char :=
  k.data.dropWhile (fun c => c = '!')

/-- `','.join(map(str, xs))` for integer lists. -/
def joinCommaInt (xs : List Int) : String :=
  String.intercalate "," (xs.map toString)

/-- Python `s.rstrip(';')`: drop every trailing semicolon. -/
def rstripSemi (s : String) : String :=
  ⟨(s.data.reverse.dropWhile (fun c => c = ';')).reverse⟩

/-- The `__str__` idiom `if s.endswith(';'): s = s[:-1]`: drop one trailing
semicolon if present. -/
def stripOneSemi (s : String) : String :=
  if strEndsWith s ";" then strDropRight s 1 else s

/-- `'T' in s` (substring membership for a single character). -/
def containsChar (s : String) (c : Char) : Bool :=
  s.data.contains c

/-- Python `int(value)` succeeds (simplified: optional sign and a nonempty
digit run after trimming; underscore groupings are not modelled). -/
def intParses (v : String) : Bool :=
  let t := pyStrip v
  let t := if strStartsWith t "+" ∨ strStartsWith t "-" then strDrop t 1 else t
  t ≠ "" ∧ t.data.all Char.isDigit

/-! ## The shared `Element` base (src/op_query_builder/elements/base.py) -/

/-- The fields every element shares (`Element.__init__`). -/
structure ElementCommon where
  id : Option Int := none
  ids : List Int := []
  tags : List (String × String) := []
  tag_conditions : List String := []
  if_conditions : List String := []
  pivot_set : Option String := none
  filter_from_set : Option String := none
  store_as_set_name : Option String := none
  deriving Repr, DecidableEq

def ElementCommon.new : ElementCommon := {}

/-- `Element._update_or_append_tag`: replace the first entry whose
`lstrip("!")`-normalized key matches, else append. -/
def updateOrAppendTag (tags : List (String × String)) (key value : String) :
    List (String × String) :=
  match tags with
  | [] => [(key, value)]
  | (k, v) :: rest =>
    if normalizeKey k = normalizeKey key then (key, value) :: rest
    else (k, v) :: updateOrAppendTag rest key value

/-- `Element.with_id`. -/
def ElementCommon.with_id (s : ElementCommon) (id : Int) :
    Except (String × ElementCommon) ElementCommon :=
  if id < 0 then
    .error ("id must be a non-negative integer", s)
  else if ¬ s.ids.isEmpty then
    .error ("Cannot set id because ids is already set. Use either with_id() or with_ids(), not both.", s)
  else .ok { s with id := some id }

/-- `Element.with_ids`. -/
def ElementCommon.with_ids (s : ElementCommon) (ids : List Int) :
    Except (String × ElementCommon) ElementCommon :=
  if ids.isEmpty then
    .error ("ids list cannot be empty", s)
  else if ids.any (fun i => i < 0) then
    .error ("All values in ids must be non-negative integers", s)
  else if s.id.isSome then
    .error ("Cannot set ids because id is already set. Use either with_id() or with_ids(), not both.", s)
  else .ok { s with ids := ids }

/-- `Element.with_tags` (all remaining source checks are type checks). -/
def ElementCommon.with_tags (s : ElementCommon) (tags : List (String × String)) :
    ElementCommon :=
  { s with tags := tags }

/-- `Element.with_tag_exists`. -/
def ElementCommon.with_tag_exists (s : ElementCommon) (key : String) :
    Except (String × ElementCommon) ElementCommon :=
  if pyStrip key = "" then
    .error ("key cannot be empty or whitespace", s)
  else .ok { s with tags := updateOrAppendTag s.tags key "" }

/-- `Element.with_tag_not_exists`. -/
def ElementCommon.with_tag_not_exists (s : ElementCommon) (key : String) :
    Except (String × ElementCommon) ElementCommon :=
  if pyStrip key = "" then
    .error ("key cannot be empty or whitespace", s)
  else .ok { s with tags := updateOrAppendTag s.tags ("!" ++ key) "" }

/-- `Element.with_tag_not`. -/
def ElementCommon.with_tag_not (s : ElementCommon) (key value : String) :
    Except (String × ElementCommon) ElementCommon :=
  if pyStrip key = "" ∨ pyStrip value = "" then
    .error ("key and value cannot be empty or whitespace", s)
  else .ok { s with tags := updateOrAppendTag s.tags key ("!=" ++ value) }

/-- `Element.with_tag_regex`. -/
def ElementCommon.with_tag_regex (s : ElementCommon) (key regex : String) :
    Except (String × ElementCommon) ElementCommon :=
  if pyStrip key = "" ∨ pyStrip regex = "" then
    .error ("key and regex cannot be empty or whitespace", s)
  else .ok { s with tags := updateOrAppendTag s.tags key ("~" ++ regex) }

/-- `Element.validate_tag_condition`: returns the raised message, if any. -/
def validateTagCondition (condition : String) : Option String :=
  if pyStrip condition = "" then
    some "condition cannot be empty or whitespace"
  else if ¬ (strStartsWith condition "[" ∧ strEndsWith condition "]") then
    some "condition must be formatted as a tag filter, e.g. [key=value]"
  else
    let inner := pyStrip (strDropRight (strDrop condition 1) 1)
    if inner = "" then
      some "Tag condition cannot be empty inside brackets"
    else
      match ["=", "!=", "~", ">", "<", ">=", "<="].find? (fun op => containsSubstr inner op) with
      | none => some "Tag condition must contain a valid operator"
      | some op =>
        match findSplit op.data (inner.data.length + 1) inner.data [] with
        | none => some "Tag condition must have exactly one key and one value separated by an operator"
        | some (p1, p2) =>
          let key := pyStrip ⟨p1⟩
          let value := pyStrip ⟨p2⟩
          if key = "" then
            some "Tag key cannot be empty"
          else if ¬ ["~", ">", "<", ">=", "<="].contains op ∧ value = "" then
            some "Tag value cannot be empty for operators =, !="
          else if ["=", "!=", "~"].contains op ∧
              ¬ (strStartsWith value "\"" ∧ strEndsWith value "\"") then
            some "Tag value must be quoted for operators =, !=, ~"
          else none

/-- `Element.with_tag_condition`. -/
def ElementCommon.with_tag_condition (s : ElementCommon) (condition : String) :
    Except (String × ElementCommon) ElementCommon :=
  match validateTagCondition condition with
  | some e => .error (e, s)
  | none => .ok { s with tag_conditions := s.tag_conditions ++ [condition] }

/-- `Element.with_if_condition`. -/
def ElementCommon.with_if_condition (s : ElementCommon) (condition : String) :
    Except (String × ElementCommon) ElementCommon :=
  if pyStrip condition = "" then
    .error ("condition cannot be empty or whitespace", s)
  else .ok { s with if_conditions := s.if_conditions ++ [condition] }

/-- The validation shared by the set-name-taking base methods. -/
def checkSetName (set_name : String) : Option String :=
  if pyStrip set_name = "" then
    some "set_name cannot be empty or whitespace"
  else if hasInvalidSetChar set_name then
    some "set_name contains invalid characters for Overpass QL"
  else none

/-- `Element.with_pivot`. -/
def ElementCommon.with_pivot (s : ElementCommon) (set_name : String) :
    Except (String × ElementCommon) ElementCommon :=
  match checkSetName set_name with
  | some e => .error (e, s)
  | none => .ok { s with pivot_set := some set_name }

/-- `Element.from_set`. -/
def ElementCommon.from_set (s : ElementCommon) (set_name : String) :
    Except (String × ElementCommon) ElementCommon :=
  match checkSetName set_name with
  | some e => .error (e, s)
  | none => .ok { s with filter_from_set := some set_name }

/-- `Element.store_as_set`. -/
def ElementCommon.store_as_set (s : ElementCommon) (set_name : String) :
    Except (String × ElementCommon) ElementCommon :=
  match checkSetName set_name with
  | some e => .error (e, s)
  | none => .ok { s with store_as_set_name := some set_name }

/-! ## Shared render fragments -/

/-- One `[...]` tag clause, as each `__str__` emits it. -/
def renderTagClause (kv : String × String) : String :=
  if kv.2 = "" then "[" ++ kv.1 ++ "]"
  else if strStartsWith kv.2 "~" then "[" ++ kv.1 ++ kv.2 ++ "]"
  else if strStartsWith kv.2 "!=" then "[" ++ kv.1 ++ kv.2 ++ "]"
  else "[" ++ kv.1 ++ "=" ++ kv.2 ++ "]"

def renderTags (tags : List (String × String)) : String :=
  String.join (tags.map renderTagClause)

/-- `.set ` source-set clause (`if self.filter_from_set:`). -/
def fromSetClause : Option String → String
  | some s => if s ≠ "" then "." ++ s ++ " " else ""
  | none => ""

/-- `(id)` or `(id1,id2,...)` (`if self.id is not None ... elif self.ids:`). -/
def idClause (id : Option Int) (ids : List Int) : String :=
  match id with
  | some i => "(" ++ toString i ++ ")"
  | none => if ids.isEmpty then "" else "(" ++ joinCommaInt ids ++ ")"

/-- `(pivot.set)` clause (`if self.pivot_set:`). -/
def pivotClause : Option String → String
  | some s => if s ≠ "" then "(pivot." ++ s ++ ")" else ""
  | none => ""

/-- `Element._append_if_conditions`. -/
def ifConditionClauses (conds : List String) : String :=
  String.join (conds.map (fun c => "[if:" ++ c ++ "]"))

/-- `->.set` suffix (`if self._store_as_set_name:`). -/
def storeClause : Option String → String
  | some s => if s ≠ "" then "->." ++ s else ""
  | none => ""

/-! ## Lifting inherited base methods to a subclass state -/

/-- A base method applied through inheritance: run it on the embedded
`ElementCommon` and re-embed the result (both on success and at a raise). -/
def liftE {α : Type} (get : α → ElementCommon) (set : α → ElementCommon → α)
    (f : ElementCommon → Except (String × ElementCommon) ElementCommon) (a : α) :
    Except (String × α) α :=
  match f (get a) with
  | .ok b => .ok (set a b)
  | .error (e, b) => .error (e, set a b)

/-! ## Spatial filter fields shared by Node, Way and Relation -/

structure SpatialFields where
  bbox : Option (Int × Int × Int × Int) := none
  area_id : Option Int := none
  area_name : Option String := none
  around_point : Option (Int × Int × Int) := none
  around_set : Option (String × Int) := none
  deriving Repr, DecidableEq

/-- `_has_spatial_filter`:
`any([self.bbox, self.area_id, self.area_name, self.around_point, self.around_set])`.
Python truthiness is kept exactly: a present tuple is truthy, `area_id` is
truthy only when nonzero, `area_name` only when nonempty. -/
def hasSpatialFilter (sp : SpatialFields) : Bool :=
  sp.bbox.isSome ∨ optIntTruthy sp.area_id ∨ optStrTruthy sp.area_name ∨
    sp.around_point.isSome ∨ sp.around_set.isSome

/-- The bbox validation shared by `with_bbox` implementations:
`-90 <= south <= north <= 90` and `-180 <= west <= east <= 180`. -/
def bboxValid (bbox : Int × Int × Int × Int) : Bool :=
  (-90 ≤ bbox.1 ∧ bbox.1 ≤ bbox.2.2.1 ∧ bbox.2.2.1 ≤ 90) ∧
    (-180 ≤ bbox.2.1 ∧ bbox.2.1 ≤ bbox.2.2.2 ∧ bbox.2.2.2 ≤ 180)

/-- The spatial clauses every `__str__` of Node/Way/Relation emits, in source
order (`if self.bbox:`, `if self.area_id is not None:`, `if self.area_name:`,
`if self.around_point:`, `if self.around_set:`). -/
def spatialClauses (sp : SpatialFields) : String :=
  (match sp.bbox with
    | some (s, w, n, e) =>
      "(" ++ toString s ++ "," ++ toString w ++ "," ++ toString n ++ "," ++ toString e ++ ")"
    | none => "") ++
  (match sp.area_id with
    | some a => "(area:" ++ toString a ++ ")"
    | none => "") ++
  (match sp.area_name with
    | some s => if s ≠ "" then "(area." ++ s ++ ")" else ""
    | none => "") ++
  (match sp.around_point with
    | some (r, la, lo) =>
      "(around:" ++ toString r ++ "," ++ toString la ++ "," ++ toString lo ++ ")"
    | none => "") ++
  (match sp.around_set with
    | some (s, r) => "(around." ++ s ++ ":" ++ toString r ++ ")"
    | none => "")

/-! ## Node (src/op_query_builder/elements/node.py) -/

structure Node where
  base : ElementCommon := {}
  spatial : SpatialFields := {}
  relation : Option Int := none
  relation_and_role : Option (Int × String) := none
  relation_from_set : Option String := none
  way : Option Int := none
  way_from_set : Option String := none
  deriving Repr, DecidableEq

def Node.new : Node := {}

/-- `Node._has_relation_filter` (again with Python truthiness: a zero
relation id is falsy). -/
def Node.hasRelationFilter (n : Node) : Bool :=
  optIntTruthy n.relation ∨ n.relation_and_role.isSome ∨ optStrTruthy n.relation_from_set

/-- `Node._has_way_filter`. -/
def Node.hasWayFilter (n : Node) : Bool :=
  optIntTruthy n.way ∨ optStrTruthy n.way_from_set

def Node.with_id (n : Node) (id : Int) : Except (String × Node) Node :=
  liftE Node.base (fun n b => { n with base := b }) (fun s => s.with_id id) n

def Node.with_ids (n : Node) (ids : List Int) : Except (String × Node) Node :=
  liftE Node.base (fun n b => { n with base := b }) (fun s => s.with_ids ids) n

def Node.with_tags (n : Node) (tags : List (String × String)) : Node :=
  { n with base := n.base.with_tags tags }

def Node.with_tag_exists (n : Node) (key : String) : Except (String × Node) Node :=
  liftE Node.base (fun n b => { n with base := b }) (fun s => s.with_tag_exists key) n

def Node.with_tag_not_exists (n : Node) (key : String) : Except (String × Node) Node :=
  liftE Node.base (fun n b => { n with base := b }) (fun s => s.with_tag_not_exists key) n

def Node.with_tag_not (n : Node) (key value : String) : Except (String × Node) Node :=
  liftE Node.base (fun n b => { n with base := b }) (fun s => s.with_tag_not key value) n

def Node.with_tag_regex (n : Node) (key regex : String) : Except (String × Node) Node :=
  liftE Node.base (fun n b => { n with base := b }) (fun s => s.with_tag_regex key regex) n

def Node.with_tag_condition (n : Node) (condition : String) : Except (String × Node) Node :=
  liftE Node.base (fun n b => { n with base := b }) (fun s => s.with_tag_condition condition) n

def Node.with_if_condition (n : Node) (condition : String) : Except (String × Node) Node :=
  liftE Node.base (fun n b => { n with base := b }) (fun s => s.with_if_condition condition) n

def Node.with_pivot (n : Node) (set_name : String) : Except (String × Node) Node :=
  liftE Node.base (fun n b => { n with base := b }) (fun s => s.with_pivot set_name) n

def Node.from_set (n : Node) (set_name : String) : Except (String × Node) Node :=
  liftE Node.base (fun n b => { n with base := b }) (fun s => s.from_set set_name) n

def Node.store_as_set (n : Node) (set_name : String) : Except (String × Node) Node :=
  liftE Node.base (fun n b => { n with base := b }) (fun s => s.store_as_set set_name) n

/-- The error message shared by all spatial-exclusivity raises. -/
def spatialConflictMsg : String :=
  "Only one spatial filter (bbox, area, around) can be set at a time. Unset the current spatial filter before setting a new one."

def Node.with_bbox (n : Node) (bbox : Int × Int × Int × Int) : Except (String × Node) Node :=
  if ¬ bboxValid bbox then
    .error ("Invalid bbox coordinates", n)
  else if hasSpatialFilter n.spatial then
    .error (spatialConflictMsg, n)
  else .ok { n with spatial := { n.spatial with bbox := some bbox } }

def Node.with_area_by_id (n : Node) (area_id : Int) : Except (String × Node) Node :=
  if area_id < 0 then
    .error ("area_id must be a non-negative integer", n)
  else if hasSpatialFilter n.spatial then
    .error (spatialConflictMsg, n)
  else .ok { n with spatial := { n.spatial with area_id := some area_id } }

def Node.with_area_by_name (n : Node) (area_name : String) : Except (String × Node) Node :=
  if pyStrip area_name = "" then
    .error ("area_name cannot be empty or whitespace", n)
  else if hasInvalidSetChar area_name then
    .error ("area_name contains invalid characters for Overpass QL", n)
  else if hasSpatialFilter n.spatial then
    .error (spatialConflictMsg, n)
  else .ok { n with spatial := { n.spatial with area_name := some area_name } }

def Node.with_around_point (n : Node) (radius lat lon : Int) : Except (String × Node) Node :=
  if radius < 0 then
    .error ("radius must be non-negative", n)
  else if ¬ (-90 ≤ lat ∧ lat ≤ 90 ∧ -180 ≤ lon ∧ lon ≤ 180) then
    .error ("lat must be between -90 and 90, lon between -180 and 180", n)
  else if hasSpatialFilter n.spatial then
    .error (spatialConflictMsg, n)
  else .ok { n with spatial := { n.spatial with around_point := some (radius, lat, lon) } }

def Node.with_around_set (n : Node) (set_name : String) (radius : Int) :
    Except (String × Node) Node :=
  if pyStrip set_name = "" then
    .error ("set_name cannot be empty or whitespace", n)
  else if radius < 0 then
    .error ("radius must be a non-negative number", n)
  else if hasSpatialFilter n.spatial then
    .error (spatialConflictMsg, n)
  else .ok { n with spatial := { n.spatial with around_set := some (set_name, radius) } }

/-- The error message of Node relation-filter conflicts. -/
def nodeRelationConflictMsg : String :=
  "Cannot set a relation filter because another relation or way filter is already set. Use only one relation or way filter at a time."

/-- The error message of Node way-filter conflicts. -/
def nodeWayConflictMsg : String :=
  "Cannot set a way filter because another way or relation filter is already set. Use only one way or relation filter at a time."

def Node.with_relation (n : Node) (relation_id : Int) : Except (String × Node) Node :=
  if relation_id < 0 then
    .error ("relation_id must be a non-negative integer", n)
  else if n.hasRelationFilter ∨ n.hasWayFilter then
    .error (nodeRelationConflictMsg, n)
  else .ok { n with relation := some relation_id }

def Node.with_relation_and_role (n : Node) (relation_id : Int) (role : String) :
    Except (String × Node) Node :=
  if relation_id < 0 then
    .error ("relation_id must be a non-negative integer", n)
  else if pyStrip role = "" then
    .error ("role must be a non-empty string", n)
  else if n.hasRelationFilter ∨ n.hasWayFilter then
    .error (nodeRelationConflictMsg, n)
  else .ok { n with relation_and_role := some (relation_id, role) }

def Node.with_relation_from_set (n : Node) (set_name : String) : Except (String × Node) Node :=
  match checkSetName set_name with
  | some e => .error (e, n)
  | none =>
    if n.hasRelationFilter ∨ n.hasWayFilter then
      .error (nodeRelationConflictMsg, n)
    else .ok { n with relation_from_set := some set_name }

def Node.with_way (n : Node) (way_id : Int) : Except (String × Node) Node :=
  if way_id < 0 then
    .error ("way_id must be a non-negative integer", n)
  else if n.hasWayFilter ∨ n.hasRelationFilter then
    .error (nodeWayConflictMsg, n)
  else .ok { n with way := some way_id }

def Node.with_way_from_set (n : Node) (set_name : String) : Except (String × Node) Node :=
  match checkSetName set_name with
  | some e => .error (e, n)
  | none =>
    if n.hasWayFilter ∨ n.hasRelationFilter then
      .error (nodeWayConflictMsg, n)
    else .ok { n with way_from_set := some set_name }

def Node.with_user (n : Node) (username : String) : Except (String × Node) Node :=
  if pyStrip username = "" then
    .error ("username cannot be empty or whitespace", n)
  else .ok { n with base := { n.base with tags := n.base.tags ++ [("user", username)] } }

def Node.with_uid (n : Node) (uid : Int) : Except (String × Node) Node :=
  if uid < 0 then
    .error ("uid must be a non-negative integer", n)
  else .ok { n with base := { n.base with tags := n.base.tags ++ [("uid", toString uid)] } }

def Node.with_newer (n : Node) (timestamp : String) : Except (String × Node) Node :=
  if pyStrip timestamp = "" then
    .error ("timestamp cannot be empty or whitespace", n)
  else if ¬ (containsChar timestamp 'T' ∧ containsChar timestamp 'Z') then
    .error ("timestamp must be in ISO 8601 format", n)
  else .ok { n with base := { n.base with tags := n.base.tags ++ [("newer", "\"" ++ timestamp ++ "\"")] } }

def Node.with_version (n : Node) (version : Int) : Except (String × Node) Node :=
  if version < 1 then
    .error ("version must be a positive integer", n)
  else .ok { n with base := { n.base with tags := n.base.tags ++ [("version", toString version)] } }

/-- `Node.__str__`. -/
def Node.render (n : Node) : String :=
  fromSetClause n.base.filter_from_set ++ "node" ++
    idClause n.base.id n.base.ids ++
    pivotClause n.base.pivot_set ++
    renderTags n.base.tags ++
    String.join n.base.tag_conditions ++
    ifConditionClauses n.base.if_conditions ++
    spatialClauses n.spatial ++
    (match n.relation with
      | some r => "(r:" ++ toString r ++ ")"
      | none => "") ++
    (match n.relation_and_role with
      | some (r, role) => "(r:" ++ toString r ++ ",\"" ++ role ++ "\")"
      | none => "") ++
    (match n.relation_from_set with
      | some s => if s ≠ "" then "(r." ++ s ++ ")" else ""
      | none => "") ++
    (match n.way with
      | some w => "(w:" ++ toString w ++ ")"
      | none => "") ++
    (match n.way_from_set with
      | some s => if s ≠ "" then "(w." ++ s ++ ")" else ""
      | none => "") ++
    storeClause n.base.store_as_set_name ++ ";"

/-- The recursion re-wrap both `Way.__str__` and `Relation.__str__` perform:
`(original;`, then `>` (and `;` if both), then `<`, then `)`. -/
def recursionWrap (down parents : Bool) (query : String) : String :=
  if down ∨ parents then
    "(" ++ query ++ ";" ++
      (if down then ">" ++ (if parents then ";" else "") else "") ++
      (if parents then "<" else "") ++ ")"
  else query

/-! ## Way (src/op_query_builder/elements/way.py) -/

structure Way where
  base : ElementCommon := {}
  spatial : SpatialFields := {}
  node : Option Int := none
  node_from_set : Option String := none
  relation : Option Int := none
  relation_and_role : Option (Int × String) := none
  relation_from_set : Option String := none
  is_closed : Option Bool := none
  min_length : Option Int := none
  min_nodes : Option Int := none
  include_nodes : Bool := false
  include_parents : Bool := false
  deriving Repr, DecidableEq

def Way.new : Way := {}

def Way.hasNodeFilter (w : Way) : Bool :=
  optIntTruthy w.node ∨ optStrTruthy w.node_from_set

def Way.hasRelationFilter (w : Way) : Bool :=
  optIntTruthy w.relation ∨ w.relation_and_role.isSome ∨ optStrTruthy w.relation_from_set

def Way.with_id (w : Way) (id : Int) : Except (String × Way) Way :=
  liftE Way.base (fun w b => { w with base := b }) (fun s => s.with_id id) w

def Way.with_ids (w : Way) (ids : List Int) : Except (String × Way) Way :=
  liftE Way.base (fun w b => { w with base := b }) (fun s => s.with_ids ids) w

def Way.with_tags (w : Way) (tags : List (String × String)) : Way :=
  { w with base := w.base.with_tags tags }

def Way.with_tag_exists (w : Way) (key : String) : Except (String × Way) Way :=
  liftE Way.base (fun w b => { w with base := b }) (fun s => s.with_tag_exists key) w

def Way.with_tag_not_exists (w : Way) (key : String) : Except (String × Way) Way :=
  liftE Way.base (fun w b => { w with base := b }) (fun s => s.with_tag_not_exists key) w

def Way.with_tag_not (w : Way) (key value : String) : Except (String × Way) Way :=
  liftE Way.base (fun w b => { w with base := b }) (fun s => s.with_tag_not key value) w

def Way.with_tag_regex (w : Way) (key regex : String) : Except (String × Way) Way :=
  liftE Way.base (fun w b => { w with base := b }) (fun s => s.with_tag_regex key regex) w

def Way.with_tag_condition (w : Way) (condition : String) : Except (String × Way) Way :=
  liftE Way.base (fun w b => { w with base := b }) (fun s => s.with_tag_condition condition) w

def Way.with_if_condition (w : Way) (condition : String) : Except (String × Way) Way :=
  liftE Way.base (fun w b => { w with base := b }) (fun s => s.with_if_condition condition) w

def Way.with_pivot (w : Way) (set_name : String) : Except (String × Way) Way :=
  liftE Way.base (fun w b => { w with base := b }) (fun s => s.with_pivot set_name) w

def Way.from_set (w : Way) (set_name : String) : Except (String × Way) Way :=
  liftE Way.base (fun w b => { w with base := b }) (fun s => s.from_set set_name) w

def Way.store_as_set (w : Way) (set_name : String) : Except (String × Way) Way :=
  liftE Way.base (fun w b => { w with base := b }) (fun s => s.store_as_set set_name) w

def Way.with_bbox (w : Way) (bbox : Int × Int × Int × Int) : Except (String × Way) Way :=
  if ¬ bboxValid bbox then
    .error ("Invalid bbox coordinates", w)
  else if hasSpatialFilter w.spatial then
    .error (spatialConflictMsg, w)
  else .ok { w with spatial := { w.spatial with bbox := some bbox } }

def Way.with_area_by_id (w : Way) (area_id : Int) : Except (String × Way) Way :=
  if area_id < 0 then
    .error ("area_id must be a non-negative integer", w)
  else if hasSpatialFilter w.spatial then
    .error (spatialConflictMsg, w)
  else .ok { w with spatial := { w.spatial with area_id := some area_id } }

def Way.with_area_by_name (w : Way) (area_name : String) : Except (String × Way) Way :=
  if pyStrip area_name = "" then
    .error ("area_name cannot be empty or whitespace", w)
  else if hasInvalidSetChar area_name then
    .error ("area_name contains invalid characters for Overpass QL", w)
  else if hasSpatialFilter w.spatial then
    .error (spatialConflictMsg, w)
  else .ok { w with spatial := { w.spatial with area_name := some area_name } }

def Way.with_around_point (w : Way) (radius lat lon : Int) : Except (String × Way) Way :=
  if radius < 0 then
    .error ("radius must be non-negative", w)
  else if ¬ (-90 ≤ lat ∧ lat ≤ 90 ∧ -180 ≤ lon ∧ lon ≤ 180) then
    .error ("lat must be between -90 and 90, lon between -180 and 180", w)
  else if hasSpatialFilter w.spatial then
    .error (spatialConflictMsg, w)
  else .ok { w with spatial := { w.spatial with around_point := some (radius, lat, lon) } }

def Way.with_around_set (w : Way) (set_name : String) (radius : Int) :
    Except (String × Way) Way :=
  if pyStrip set_name = "" then
    .error ("set_name cannot be empty or whitespace", w)
  else if radius < 0 then
    .error ("radius must be a non-negative number", w)
  else if hasSpatialFilter w.spatial then
    .error (spatialConflictMsg, w)
  else .ok { w with spatial := { w.spatial with around_set := some (set_name, radius) } }

def Way.with_node (w : Way) (node_id : Int) : Except (String × Way) Way :=
  if node_id < 0 then
    .error ("node_id must be a non-negative integer", w)
  else if w.hasNodeFilter then
    .error ("Cannot set a node filter because another node filter is already set. Use only one node filter at a time.", w)
  else .ok { w with node := some node_id }

def Way.with_node_from_set (w : Way) (set_name : String) : Except (String × Way) Way :=
  match checkSetName set_name with
  | some e => .error (e, w)
  | none =>
    if w.hasNodeFilter then
      .error ("Cannot set a node filter because another node filter is already set. Use only one node filter at a time.", w)
    else .ok { w with node_from_set := some set_name }

def Way.with_relation (w : Way) (relation_id : Int) : Except (String × Way) Way :=
  if relation_id < 0 then
    .error ("relation_id must be a non-negative integer", w)
  else if w.hasRelationFilter then
    .error ("Cannot set a relation filter because another relation filter is already set. Use only one relation filter at a time.", w)
  else .ok { w with relation := some relation_id }

def Way.with_relation_and_role (w : Way) (relation_id : Int) (role : String) :
    Except (String × Way) Way :=
  if relation_id < 0 then
    .error ("relation_id must be a non-negative integer", w)
  else if pyStrip role = "" then
    .error ("role must be a non-empty string", w)
  else if w.hasRelationFilter then
    .error ("Cannot set a relation filter because another relation filter is already set. Use only one relation filter at a time.", w)
  else .ok { w with relation_and_role := some (relation_id, role) }

def Way.with_relation_from_set (w : Way) (set_name : String) : Except (String × Way) Way :=
  match checkSetName set_name with
  | some e => .error (e, w)
  | none =>
    if w.hasRelationFilter then
      .error ("Cannot set a relation filter because another relation filter is already set. Use only one relation filter at a time.", w)
    else .ok { w with relation_from_set := some set_name }

/-- `Way.with_closed` (no raise in the source). -/
def Way.with_closed (w : Way) (is_closed : Bool) : Way :=
  { w with is_closed := some is_closed }

def Way.with_min_length (w : Way) (length : Int) : Except (String × Way) Way :=
  if length < 0 then
    .error ("length must be non-negative", w)
  else .ok { w with min_length := some length }

def Way.with_min_nodes (w : Way) (node_count : Int) : Except (String × Way) Way :=
  if node_count < 1 then
    .error ("node_count must be a positive integer", w)
  else .ok { w with min_nodes := some node_count }

/-- `Way.with_nodes` (no raise in the source). -/
def Way.with_nodes (w : Way) : Way :=
  { w with include_nodes := true }

/-- `Way.with_parents` (no raise in the source). -/
def Way.with_parents (w : Way) : Way :=
  { w with include_parents := true }

def Way.with_user (w : Way) (username : String) : Except (String × Way) Way :=
  if pyStrip username = "" then
    .error ("username cannot be empty or whitespace", w)
  else .ok { w with base := { w.base with tags := w.base.tags ++ [("user", username)] } }

def Way.with_uid (w : Way) (uid : Int) : Except (String × Way) Way :=
  if uid < 0 then
    .error ("uid must be a non-negative integer", w)
  else .ok { w with base := { w.base with tags := w.base.tags ++ [("uid", toString uid)] } }

def Way.with_newer (w : Way) (timestamp : String) : Except (String × Way) Way :=
  if pyStrip timestamp = "" then
    .error ("timestamp cannot be empty or whitespace", w)
  else if ¬ (containsChar timestamp 'T' ∧ containsChar timestamp 'Z') then
    .error ("timestamp must be in ISO 8601 format", w)
  else .ok { w with base := { w.base with tags := w.base.tags ++ [("newer", "\"" ++ timestamp ++ "\"")] } }

def Way.with_version (w : Way) (version : Int) : Except (String × Way) Way :=
  if version < 1 then
    .error ("version must be a positive integer", w)
  else .ok { w with base := { w.base with tags := w.base.tags ++ [("version", toString version)] } }

/-- `Way.__str__` before the recursion re-wrap and store-as-set suffix. -/
def Way.renderCore (w : Way) : String :=
  fromSetClause w.base.filter_from_set ++ "way" ++
    idClause w.base.id w.base.ids ++
    pivotClause w.base.pivot_set ++
    renderTags w.base.tags ++
    String.join w.base.tag_conditions ++
    ifConditionClauses w.base.if_conditions ++
    (match w.is_closed with
      | some b => "[is_closed=" ++ (if b then "true" else "false") ++ "]"
      | none => "") ++
    (match w.min_length with
      | some v => "[if:length()>" ++ toString v ++ "]"
      | none => "") ++
    (match w.min_nodes with
      | some v => "[if:count(nodes)>" ++ toString v ++ "]"
      | none => "") ++
    spatialClauses w.spatial ++
    (match w.node with
      | some v => "(n:" ++ toString v ++ ")"
      | none => "") ++
    (match w.node_from_set with
      | some s => if s ≠ "" then "(n." ++ s ++ ")" else ""
      | none => "") ++
    (match w.relation with
      | some r => "(r:" ++ toString r ++ ")"
      | none => "") ++
    (match w.relation_and_role with
      | some (r, role) => "(r:" ++ toString r ++ ",\"" ++ role ++ "\")"
      | none => "") ++
    (match w.relation_from_set with
      | some s => if s ≠ "" then "(r." ++ s ++ ")" else ""
      | none => "")

/-- `Way.__str__`. -/
def Way.render (w : Way) : String :=
  recursionWrap w.include_nodes w.include_parents w.renderCore ++
    storeClause w.base.store_as_set_name ++ ";"

/-! ## Relation (src/op_query_builder/elements/relation.py) -/

structure Relation where
  base : ElementCommon := {}
  spatial : SpatialFields := {}
  node : Option Int := none
  node_from_set : Option String := none
  way : Option Int := none
  way_from_set : Option String := none
  relation : Option Int := none
  relation_and_role : Option (Int × String) := none
  relation_from_set : Option String := none
  min_members : Option Int := none
  min_role_count : Option (String × Int) := none
  include_members : Bool := false
  include_parents : Bool := false
  deriving Repr, DecidableEq

def Relation.new : Relation := {}

def Relation.hasNodeFilter (r : Relation) : Bool :=
  optIntTruthy r.node ∨ optStrTruthy r.node_from_set

def Relation.hasWayFilter (r : Relation) : Bool :=
  optIntTruthy r.way ∨ optStrTruthy r.way_from_set

def Relation.hasRelationFilter (r : Relation) : Bool :=
  optIntTruthy r.relation ∨ r.relation_and_role.isSome ∨ optStrTruthy r.relation_from_set

def Relation.with_id (r : Relation) (id : Int) : Except (String × Relation) Relation :=
  liftE Relation.base (fun r b => { r with base := b }) (fun s => s.with_id id) r

def Relation.with_ids (r : Relation) (ids : List Int) : Except (String × Relation) Relation :=
  liftE Relation.base (fun r b => { r with base := b }) (fun s => s.with_ids ids) r

def Relation.with_tags (r : Relation) (tags : List (String × String)) : Relation :=
  { r with base := r.base.with_tags tags }

def Relation.with_tag_exists (r : Relation) (key : String) : Except (String × Relation) Relation :=
  liftE Relation.base (fun r b => { r with base := b }) (fun s => s.with_tag_exists key) r

def Relation.with_tag_not_exists (r : Relation) (key : String) :
    Except (String × Relation) Relation :=
  liftE Relation.base (fun r b => { r with base := b }) (fun s => s.with_tag_not_exists key) r

def Relation.with_tag_not (r : Relation) (key value : String) :
    Except (String × Relation) Relation :=
  liftE Relation.base (fun r b => { r with base := b }) (fun s => s.with_tag_not key value) r

def Relation.with_tag_regex (r : Relation) (key regex : String) :
    Except (String × Relation) Relation :=
  liftE Relation.base (fun r b => { r with base := b }) (fun s => s.with_tag_regex key regex) r

def Relation.with_tag_condition (r : Relation) (condition : String) :
    Except (String × Relation) Relation :=
  liftE Relation.base (fun r b => { r with base := b }) (fun s => s.with_tag_condition condition) r

def Relation.with_if_condition (r : Relation) (condition : String) :
    Except (String × Relation) Relation :=
  liftE Relation.base (fun r b => { r with base := b }) (fun s => s.with_if_condition condition) r

def Relation.with_pivot (r : Relation) (set_name : String) : Except (String × Relation) Relation :=
  liftE Relation.base (fun r b => { r with base := b }) (fun s => s.with_pivot set_name) r

def Relation.from_set (r : Relation) (set_name : String) : Except (String × Relation) Relation :=
  liftE Relation.base (fun r b => { r with base := b }) (fun s => s.from_set set_name) r

def Relation.store_as_set (r : Relation) (set_name : String) :
    Except (String × Relation) Relation :=
  liftE Relation.base (fun r b => { r with base := b }) (fun s => s.store_as_set set_name) r

def Relation.with_type (r : Relation) (relation_type : String) :
    Except (String × Relation) Relation :=
  if pyStrip relation_type = "" then
    .error ("relation_type cannot be empty or whitespace", r)
  else .ok { r with base := { r.base with tags := r.base.tags ++ [("type", relation_type)] } }

def Relation.with_min_members (r : Relation) (count : Int) : Except (String × Relation) Relation :=
  if count < 1 then
    .error ("count must be a positive integer", r)
  else .ok { r with min_members := some count }

def Relation.with_min_role_count (r : Relation) (role : String) (count : Int) :
    Except (String × Relation) Relation :=
  if pyStrip role = "" then
    .error ("role cannot be empty or whitespace", r)
  else if count < 1 then
    .error ("count must be a positive integer", r)
  else .ok { r with min_role_count := some (role, count) }

def Relation.with_bbox (r : Relation) (bbox : Int × Int × Int × Int) :
    Except (String × Relation) Relation :=
  if ¬ bboxValid bbox then
    .error ("Invalid bbox coordinates", r)
  else if hasSpatialFilter r.spatial then
    .error (spatialConflictMsg, r)
  else .ok { r with spatial := { r.spatial with bbox := some bbox } }

def Relation.with_area_by_id (r : Relation) (area_id : Int) : Except (String × Relation) Relation :=
  if area_id < 0 then
    .error ("area_id must be a non-negative integer", r)
  else if hasSpatialFilter r.spatial then
    .error (spatialConflictMsg, r)
  else .ok { r with spatial := { r.spatial with area_id := some area_id } }

def Relation.with_area_by_name (r : Relation) (area_name : String) :
    Except (String × Relation) Relation :=
  if pyStrip area_name = "" then
    .error ("area_name cannot be empty or whitespace", r)
  else if hasInvalidSetChar area_name then
    .error ("area_name contains invalid characters for Overpass QL", r)
  else if hasSpatialFilter r.spatial then
    .error (spatialConflictMsg, r)
  else .ok { r with spatial := { r.spatial with area_name := some area_name } }

def Relation.with_around_point (r : Relation) (radius lat lon : Int) :
    Except (String × Relation) Relation :=
  if radius < 0 then
    .error ("radius must be non-negative", r)
  else if ¬ (-90 ≤ lat ∧ lat ≤ 90 ∧ -180 ≤ lon ∧ lon ≤ 180) then
    .error ("lat must be between -90 and 90, lon between -180 and 180", r)
  else if hasSpatialFilter r.spatial then
    .error (spatialConflictMsg, r)
  else .ok { r with spatial := { r.spatial with around_point := some (radius, lat, lon) } }

def Relation.with_around_set (r : Relation) (set_name : String) (radius : Int) :
    Except (String × Relation) Relation :=
  if pyStrip set_name = "" then
    .error ("set_name cannot be empty or whitespace", r)
  else if radius < 0 then
    .error ("radius must be a non-negative number", r)
  else if hasSpatialFilter r.spatial then
    .error (spatialConflictMsg, r)
  else .ok { r with spatial := { r.spatial with around_set := some (set_name, radius) } }

def Relation.with_node (r : Relation) (node_id : Int) : Except (String × Relation) Relation :=
  if node_id < 0 then
    .error ("node_id must be a non-negative integer", r)
  else if r.hasNodeFilter then
    .error ("Cannot set a node filter because another node filter is already set. Use only one node filter at a time.", r)
  else .ok { r with node := some node_id }

def Relation.with_node_from_set (r : Relation) (set_name : String) :
    Except (String × Relation) Relation :=
  match checkSetName set_name with
  | some e => .error (e, r)
  | none =>
    if r.hasNodeFilter then
      .error ("Cannot set a node filter because another node filter is already set. Use only one node filter at a time.", r)
    else .ok { r with node_from_set := some set_name }

def Relation.with_way (r : Relation) (way_id : Int) : Except (String × Relation) Relation :=
  if way_id < 0 then
    .error ("way_id must be a non-negative integer", r)
  else if r.hasWayFilter then
    .error ("Cannot set a way filter because another way filter is already set. Use only one way filter at a time.", r)
  else .ok { r with way := some way_id }

def Relation.with_way_from_set (r : Relation) (set_name : String) :
    Except (String × Relation) Relation :=
  match checkSetName set_name with
  | some e => .error (e, r)
  | none =>
    if r.hasWayFilter then
      .error ("Cannot set a way filter because another way filter is already set. Use only one way filter at a time.", r)
    else .ok { r with way_from_set := some set_name }

def Relation.with_relation (r : Relation) (relation_id : Int) :
    Except (String × Relation) Relation :=
  if relation_id < 0 then
    .error ("relation_id must be a non-negative integer", r)
  else if r.hasRelationFilter then
    .error ("Cannot set a relation filter because another relation filter is already set. Use only one relation filter at a time.", r)
  else .ok { r with relation := some relation_id }

def Relation.with_relation_and_role (r : Relation) (relation_id : Int) (role : String) :
    Except (String × Relation) Relation :=
  if relation_id < 0 then
    .error ("relation_id must be a non-negative integer", r)
  else if pyStrip role = "" then
    .error ("role must be a non-empty string", r)
  else if r.hasRelationFilter then
    .error ("Cannot set a relation filter because another relation filter is already set. Use only one relation filter at a time.", r)
  else .ok { r with relation_and_role := some (relation_id, role) }

def Relation.with_relation_from_set (r : Relation) (set_name : String) :
    Except (String × Relation) Relation :=
  match checkSetName set_name with
  | some e => .error (e, r)
  | none =>
    if r.hasRelationFilter then
      .error ("Cannot set a relation filter because another relation filter is already set. Use only one relation filter at a time.", r)
    else .ok { r with relation_from_set := some set_name }

/-- `Relation.with_members` (no raise in the source). -/
def Relation.with_members (r : Relation) : Relation :=
  { r with include_members := true }

/-- `Relation.with_parents` (no raise in the source). -/
def Relation.with_parents (r : Relation) : Relation :=
  { r with include_parents := true }

def Relation.with_user (r : Relation) (username : String) : Except (String × Relation) Relation :=
  if pyStrip username = "" then
    .error ("username cannot be empty or whitespace", r)
  else .ok { r with base := { r.base with tags := r.base.tags ++ [("user", username)] } }

def Relation.with_uid (r : Relation) (uid : Int) : Except (String × Relation) Relation :=
  if uid < 0 then
    .error ("uid must be a non-negative integer", r)
  else .ok { r with base := { r.base with tags := r.base.tags ++ [("uid", toString uid)] } }

def Relation.with_newer (r : Relation) (timestamp : String) : Except (String × Relation) Relation :=
  if pyStrip timestamp = "" then
    .error ("timestamp cannot be empty or whitespace", r)
  else if ¬ (containsChar timestamp 'T' ∧ containsChar timestamp 'Z') then
    .error ("timestamp must be in ISO 8601 format", r)
  else .ok { r with base := { r.base with tags := r.base.tags ++ [("newer", "\"" ++ timestamp ++ "\"")] } }

def Relation.with_version (r : Relation) (version : Int) : Except (String × Relation) Relation :=
  if version < 1 then
    .error ("version must be a positive integer", r)
  else .ok { r with base := { r.base with tags := r.base.tags ++ [("version", toString version)] } }

/-- `Relation.__str__` before the recursion re-wrap and store-as-set suffix. -/
def Relation.renderCore (r : Relation) : String :=
  fromSetClause r.base.filter_from_set ++ "relation" ++
    idClause r.base.id r.base.ids ++
    pivotClause r.base.pivot_set ++
    renderTags r.base.tags ++
    String.join r.base.tag_conditions ++
    ifConditionClauses r.base.if_conditions ++
    (match r.min_members with
      | some v => "[if:count(members)>" ++ toString v ++ "]"
      | none => "") ++
    (match r.min_role_count with
      | some (role, count) => "[if:count_by_role(\"" ++ role ++ "\")>" ++ toString count ++ "]"
      | none => "") ++
    spatialClauses r.spatial ++
    (match r.node with
      | some v => "(n:" ++ toString v ++ ")"
      | none => "") ++
    (match r.node_from_set with
      | some s => if s ≠ "" then "(n." ++ s ++ ")" else ""
      | none => "") ++
    (match r.way with
      | some v => "(w:" ++ toString v ++ ")"
      | none => "") ++
    (match r.way_from_set with
      | some s => if s ≠ "" then "(w." ++ s ++ ")" else ""
      | none => "") ++
    (match r.relation with
      | some v => "(r:" ++ toString v ++ ")"
      | none => "") ++
    (match r.relation_and_role with
      | some (v, role) => "(r:" ++ toString v ++ ",\"" ++ role ++ "\")"
      | none => "") ++
    (match r.relation_from_set with
      | some s => if s ≠ "" then "(r." ++ s ++ ")" else ""
      | none => "")

/-- `Relation.__str__`. -/
def Relation.render (r : Relation) : String :=
  recursionWrap r.include_members r.include_parents r.renderCore ++
    storeClause r.base.store_as_set_name ++ ";"

/-! ## Changeset (src/op_query_builder/elements/changeset.py) -/

structure Changeset where
  base : ElementCommon := {}
  bbox : Option (Int × Int × Int × Int) := none
  time_range : Option (String × String) := none
  deriving Repr, DecidableEq

def Changeset.new : Changeset := {}

/-- `Changeset._update_or_append_tag` compares keys exactly (no `!`-stripping). -/
def updateOrAppendTagExact (tags : List (String × String)) (key value : String) :
    List (String × String) :=
  match tags with
  | [] => [(key, value)]
  | (k, v) :: rest =>
    if k = key then (key, value) :: rest
    else (k, v) :: updateOrAppendTagExact rest key value

/-- `Changeset._has_spatial_filter`. -/
def Changeset.hasSpatialFilter (c : Changeset) : Bool :=
  c.bbox.isSome

/-- `Changeset._has_time_filter`. -/
def Changeset.hasTimeFilter (c : Changeset) : Bool :=
  c.base.tags.any (fun t => t.1 = "time") ∨ c.time_range.isSome

def Changeset.with_id (c : Changeset) (id : Int) : Except (String × Changeset) Changeset :=
  if id < 0 then
    .error ("id must be a non-negative integer", c)
  else if ¬ c.base.ids.isEmpty then
    .error ("Cannot set id, field ids is already set. Choose one or the other", c)
  else .ok { c with base := { c.base with id := some id } }

def Changeset.with_ids (c : Changeset) (ids : List Int) : Except (String × Changeset) Changeset :=
  if ids.isEmpty then
    .error ("ids list cannot be empty", c)
  else if ids.any (fun i => i < 0) then
    .error ("All values in ids must be non-negative integers", c)
  else if c.base.id.isSome then
    .error ("Cannot set ids, field id is already set. Choose one or the other", c)
  else .ok { c with base := { c.base with ids := ids } }

def Changeset.with_tags (c : Changeset) (tags : List (String × String)) : Changeset :=
  { c with base := { c.base with tags := tags } }

def Changeset.with_bbox (c : Changeset) (bbox : Int × Int × Int × Int) :
    Except (String × Changeset) Changeset :=
  if ¬ bboxValid bbox then
    .error ("Invalid bbox coordinates", c)
  else if c.hasSpatialFilter then
    .error ("Only one spatial filter (bbox) can be set for changesets", c)
  else .ok { c with bbox := some bbox }

def Changeset.with_user (c : Changeset) (username : String) :
    Except (String × Changeset) Changeset :=
  if pyStrip username = "" then
    .error ("username cannot be empty or whitespace", c)
  else .ok { c with base := { c.base with tags := updateOrAppendTagExact c.base.tags "user" username } }

def Changeset.with_uid (c : Changeset) (uid : Int) : Except (String × Changeset) Changeset :=
  if uid < 0 then
    .error ("uid must be a non-negative integer", c)
  else .ok { c with base := { c.base with tags := updateOrAppendTagExact c.base.tags "uid" (toString uid) } }

/-- `Changeset.with_open` (no raise in the source). -/
def Changeset.with_open (c : Changeset) (is_open : Bool) : Changeset :=
  { c with base := { c.base with tags := updateOrAppendTagExact c.base.tags "open" (if is_open then "true" else "false") } }

def Changeset.with_time (c : Changeset) (timestamp : String) :
    Except (String × Changeset) Changeset :=
  if pyStrip timestamp = "" then
    .error ("timestamp cannot be empty or whitespace", c)
  else if ¬ (containsChar timestamp 'T' ∧ containsChar timestamp 'Z') then
    .error ("timestamp must be in ISO 8601 format", c)
  else if c.hasTimeFilter then
    .error ("Cannot set time filter when another time filter is set", c)
  else .ok { c with base := { c.base with tags := updateOrAppendTagExact c.base.tags "time" ("\"" ++ timestamp ++ "\"") } }

def Changeset.with_time_range (c : Changeset) (start_time end_time : String) :
    Except (String × Changeset) Changeset :=
  if pyStrip start_time = "" ∨ pyStrip end_time = "" then
    .error ("start_time and end_time cannot be empty or whitespace", c)
  else if ¬ (containsChar start_time 'T' ∧ containsChar start_time 'Z' ∧
      containsChar end_time 'T' ∧ containsChar end_time 'Z') then
    .error ("start_time and end_time must be in ISO 8601 format", c)
  else if c.hasTimeFilter then
    .error ("Cannot set time range filter when another time filter is set", c)
  else .ok { c with time_range := some (start_time, end_time) }

def Changeset.with_comment (c : Changeset) (comment : String) :
    Except (String × Changeset) Changeset :=
  if pyStrip comment = "" then
    .error ("comment cannot be empty or whitespace", c)
  else .ok { c with base := { c.base with tags := updateOrAppendTagExact c.base.tags "comment" ("\"" ++ comment ++ "\"") } }

def Changeset.with_created_by (c : Changeset) (editor : String) :
    Except (String × Changeset) Changeset :=
  if pyStrip editor = "" then
    .error ("editor cannot be empty or whitespace", c)
  else .ok { c with base := { c.base with tags := updateOrAppendTagExact c.base.tags "created_by" editor } }

def Changeset.with_tag_exists (c : Changeset) (key : String) :
    Except (String × Changeset) Changeset :=
  if pyStrip key = "" then
    .error ("key cannot be empty or whitespace", c)
  else .ok { c with base := { c.base with tags := updateOrAppendTagExact c.base.tags key "" } }

def Changeset.with_tag_not_exists (c : Changeset) (key : String) :
    Except (String × Changeset) Changeset :=
  if pyStrip key = "" then
    .error ("key cannot be empty or whitespace", c)
  else .ok { c with base := { c.base with tags := updateOrAppendTagExact c.base.tags ("!" ++ key) "" } }

def Changeset.with_tag_not (c : Changeset) (key value : String) :
    Except (String × Changeset) Changeset :=
  if pyStrip key = "" ∨ pyStrip value = "" then
    .error ("key and value cannot be empty or whitespace", c)
  else .ok { c with base := { c.base with tags := updateOrAppendTagExact c.base.tags key ("!=" ++ value) } }

def Changeset.with_tag_regex (c : Changeset) (key regex : String) :
    Except (String × Changeset) Changeset :=
  if pyStrip key = "" ∨ pyStrip regex = "" then
    .error ("key and regex cannot be empty or whitespace", c)
  else .ok { c with base := { c.base with tags := updateOrAppendTagExact c.base.tags key ("~" ++ regex) } }

def Changeset.with_tag_condition (c : Changeset) (condition : String) :
    Except (String × Changeset) Changeset :=
  if pyStrip condition = "" then
    .error ("condition cannot be empty or whitespace", c)
  else if ¬ (strStartsWith condition "[" ∧ strEndsWith condition "]") then
    .error ("condition must be formatted as a tag filter, e.g. [key=value]", c)
  else .ok { c with base := { c.base with tag_conditions := c.base.tag_conditions ++ [condition] } }

def Changeset.from_set (c : Changeset) (set_name : String) :
    Except (String × Changeset) Changeset :=
  match checkSetName set_name with
  | some e => .error (e, c)
  | none => .ok { c with base := { c.base with filter_from_set := some set_name } }

def Changeset.store_as_set (c : Changeset) (set_name : String) :
    Except (String × Changeset) Changeset :=
  match checkSetName set_name with
  | some e => .error (e, c)
  | none => .ok { c with base := { c.base with store_as_set_name := some set_name } }

/-- `Changeset.__str__`. -/
def Changeset.render (c : Changeset) : String :=
  fromSetClause c.base.filter_from_set ++ "changeset" ++
    idClause c.base.id c.base.ids ++
    renderTags c.base.tags ++
    String.join c.base.tag_conditions ++
    ifConditionClauses c.base.if_conditions ++
    (match c.time_range with
      | some (s, e) => "[time>=\"" ++ s ++ "\"][time<=\"" ++ e ++ "\"]"
      | none => "") ++
    (match c.bbox with
      | some (s, w, n, e) =>
        "(" ++ toString s ++ "," ++ toString w ++ "," ++ toString n ++ "," ++ toString e ++ ")"
      | none => "") ++
    storeClause c.base.store_as_set_name ++ ";"

/-! ## Area (src/op_query_builder/derived/area.py) -/

structure Area where
  base : ElementCommon := {}
  deriving Repr, DecidableEq

def Area.new : Area := {}

def Area.with_id (a : Area) (id : Int) : Except (String × Area) Area :=
  if id < 0 then
    .error ("id must be a non-negative integer", a)
  else if id < 2400000000 then
    .error ("Area IDs in Overpass QL are typically derived from OSM way/relation IDs by adding 2400000000", a)
  else if a.base.pivot_set.isSome then
    .error ("Cannot set id when a pivot set is already set", a)
  else .ok { a with base := { a.base with id := some id } }

/-- `Area.with_pivot`: its own id-conflict check, then the inherited
`Element.with_pivot`. -/
def Area.with_pivot (a : Area) (set_name : String) : Except (String × Area) Area :=
  if a.base.id.isSome then
    .error ("Cannot set pivot when an id is already set", a)
  else liftE Area.base (fun a b => { a with base := b }) (fun s => s.with_pivot set_name) a

def Area.with_tags (a : Area) (tags : List (String × String)) : Area :=
  { a with base := { a.base with tags := tags } }

def Area.with_boundary (a : Area) (boundary : String) : Except (String × Area) Area :=
  if pyStrip boundary = "" then
    .error ("boundary cannot be empty or whitespace", a)
  else .ok { a with base := { a.base with tags := updateOrAppendTag a.base.tags "boundary" boundary } }

def Area.with_name (a : Area) (name : String) : Except (String × Area) Area :=
  if pyStrip name = "" then
    .error ("name cannot be empty or whitespace", a)
  else .ok { a with base := { a.base with tags := updateOrAppendTag a.base.tags "name" name } }

def Area.from_set (a : Area) (set_name : String) : Except (String × Area) Area :=
  match checkSetName set_name with
  | some e => .error (e, a)
  | none => .ok { a with base := { a.base with filter_from_set := some set_name } }

def Area.with_tag_exists (a : Area) (key : String) : Except (String × Area) Area :=
  if pyStrip key = "" then
    .error ("key cannot be empty or whitespace", a)
  else .ok { a with base := { a.base with tags := updateOrAppendTag a.base.tags key "" } }

def Area.with_tag_not_exists (a : Area) (key : String) : Except (String × Area) Area :=
  if pyStrip key = "" then
    .error ("key cannot be empty or whitespace", a)
  else .ok { a with base := { a.base with tags := updateOrAppendTag a.base.tags ("!" ++ key) "" } }

def Area.with_tag_not (a : Area) (key value : String) : Except (String × Area) Area :=
  if pyStrip key = "" ∨ pyStrip value = "" then
    .error ("key and value cannot be empty or whitespace", a)
  else .ok { a with base := { a.base with tags := updateOrAppendTag a.base.tags key ("!=" ++ value) } }

def Area.with_tag_regex (a : Area) (key regex : String) : Except (String × Area) Area :=
  if pyStrip key = "" ∨ pyStrip regex = "" then
    .error ("key and regex cannot be empty or whitespace", a)
  else .ok { a with base := { a.base with tags := updateOrAppendTag a.base.tags key ("~" ++ regex) } }

def Area.with_tag_condition (a : Area) (condition : String) : Except (String × Area) Area :=
  if pyStrip condition = "" then
    .error ("condition cannot be empty or whitespace", a)
  else if ¬ (strStartsWith condition "[" ∧ strEndsWith condition "]") then
    .error ("condition must be formatted as a tag filter, e.g. [key=value]", a)
  else .ok { a with base := { a.base with tag_conditions := a.base.tag_conditions ++ [condition] } }

def Area.store_as_set (a : Area) (set_name : String) : Except (String × Area) Area :=
  match checkSetName set_name with
  | some e => .error (e, a)
  | none => .ok { a with base := { a.base with store_as_set_name := some set_name } }

/-- `Area.__str__`. -/
def Area.render (a : Area) : String :=
  fromSetClause a.base.filter_from_set ++ "area" ++
    (match a.base.id with
      | some i => "(" ++ toString i ++ ")"
      | none => "") ++
    pivotClause a.base.pivot_set ++
    renderTags a.base.tags ++
    String.join a.base.tag_conditions ++
    ifConditionClauses a.base.if_conditions ++
    storeClause a.base.store_as_set_name ++ ";"

/-! ## Recurse (src/op_query_builder/temporal/recurse.py) -/

structure Recurse where
  direction : String
  set_name : Option String
  deriving Repr, DecidableEq

/-- `Recurse.__init__` together with `Recurse._validate`. -/
def mkRecurse (direction : String) (set_name : Option String) : Except String Recurse :=
  if ¬ [">>", "<<"].contains direction then
    .error "Direction must be one of >> or <<"
  else
    match set_name with
    | none => .ok ⟨direction, none⟩
    | some s =>
      if pyStrip s = "" then .error "set_name cannot be empty or whitespace"
      else if hasInvalidSetChar s then
        .error "set_name contains invalid characters for Overpass QL"
      else .ok ⟨direction, some s⟩

/-- `Recurse.__str__`. -/
def Recurse.render (r : Recurse) : String :=
  match r.set_name with
  | some s => if s ≠ "" then "." ++ s ++ " " ++ r.direction ++ ";" else r.direction ++ ";"
  | none => r.direction ++ ";"

/-! ## Timeline (src/op_query_builder/temporal/timeline.py) -/

/-- The element kinds a Timeline may wrap. -/
inductive TLElem where
  | node : Node → TLElem
  | way : Way → TLElem
  | relation : Relation → TLElem
  deriving Repr, DecidableEq

def TLElem.render : TLElem → String
  | .node n => n.render
  | .way w => w.render
  | .relation r => r.render

structure Timeline where
  element : TLElem
  deriving Repr, DecidableEq

/-- `Timeline.__init__` together with `Timeline._validate`: the only check in
the source is `isinstance(element, (Node, Way, Relation))`, which the `TLElem`
type enforces, so construction always succeeds. -/
def mkTimeline (element : TLElem) : Except String Timeline :=
  .ok { element := element }

/-- `Timeline.__str__`. -/
def Timeline.render (t : Timeline) : String :=
  "timeline(" ++ stripOneSemi t.element.render ++ ");"

/-! ## Adiff (src/op_query_builder/temporal/adiff.py) -/

/-- An Adiff bound: an ISO-8601-looking timestamp string or a version number. -/
inductive TimeVal where
  | str : String → TimeVal
  | ver : Int → TimeVal
  deriving Repr, DecidableEq

structure Adiff where
  start_time : Option TimeVal
  end_time : Option TimeVal
  deriving Repr, DecidableEq

def timeValOk : Option TimeVal → Bool
  | none => true
  | some (.str s) => containsChar s 'T' ∧ containsChar s 'Z'
  | some (.ver _) => true

/-- `Adiff.__init__` together with `Adiff._validate`. -/
def mkAdiff (start_time end_time : Option TimeVal) : Except String Adiff :=
  if start_time.isNone ∧ end_time.isNone then
    .error "At least one of start_time or end_time must be provided for an Adiff statement."
  else if ¬ (timeValOk start_time ∧ timeValOk end_time) then
    .error "Timestamps must be in ISO 8601 format"
  else .ok ⟨start_time, end_time⟩

def formatTime : Option TimeVal → String
  | none => ""
  | some (.str s) => "\"" ++ s ++ "\""
  | some (.ver n) => toString n

/-- `Adiff.__str__`. -/
def Adiff.render (a : Adiff) : String :=
  "adiff(" ++ formatTime a.start_time ++ "," ++ formatTime a.end_time ++ ");"

/-! ## Statements held by a Query (the `Query.statements` list), including the
`Union` and `Difference` wrappers of query.py -/

inductive Statement where
  | node : Node → Statement
  | way : Way → Statement
  | relation : Relation → Statement
  | changeset : Changeset → Statement
  | area : Area → Statement
  | union : List Statement → Statement
  | difference : Statement → List Statement → Statement
  | recurse : Recurse → Statement
  | timeline : Timeline → Statement
  | adiff : Adiff → Statement
  | raw : String → Statement

/-- `str(statement)`, dispatching on the runtime kind; `Union.__str__` and
`Difference.__str__` are inlined at their constructors. -/
def Statement.render : Statement → String
  | .node n => n.render
  | .way w => w.render
  | .relation r => r.render
  | .changeset c => c.render
  | .area a => a.render
  | .union els =>
    "(" ++
      String.intercalate " "
        (els.attach.map (fun p => rstripSemi (Statement.render p.1) ++ ";")) ++
      ");"
  | .difference base subs =>
    "(" ++ rstripSemi (Statement.render base) ++ "; " ++
      String.intercalate " "
        (subs.attach.map (fun p => "- " ++ rstripSemi (Statement.render p.1) ++ ";")) ++
      ");"
  | .recurse r => r.render
  | .timeline t => t.render
  | .adiff a => a.render
  | .raw s => s
  termination_by s => sizeOf s
  decreasing_by
    all_goals simp_wf
    all_goals first
      | (have h1 := List.sizeOf_lt_of_mem p.2; omega)
      | omega

/-! ## Query (src/op_query_builder/query.py) -/

/-- The fields of `Query.__init__`, parametrized by the type of nested
sub-queries so that `Query` itself can close the recursion through
`foreach_statements`. -/
structure QueryCore (Q : Type) where
  output : String := "json"
  output_detail : Option String := some "body"
  timeout : Option Int := none
  date : Option String := none
  global_bbox : Option (Int × Int × Int × Int) := none
  statements : List Statement := []
  is_in_statements : List (Int × Int × Option String) := []
  foreach_statements : List (String × Q) := []
  convert_statements : List (String × String × List String) := []
  sort_order : Option String := none
  limit : Option Int := none
  output_mode : Option String := none
  settings : List (String × String) := []

inductive Query where
  | mk : QueryCore Query → Query

def Query.core : Query → QueryCore Query
  | .mk c => c

def Query.new : Query := .mk {}

/-- `Query._validate_query`: the output-mode conflict checks, returning the
raised message if any. -/
def validateQuery {Q : Type} (c : QueryCore Q) : Option String :=
  if c.output_mode = some "count" ∨ c.output_mode = some "ids" then
    if optStrTruthy c.sort_order then
      some "Cannot use sort_order with output_mode count or ids. Sort order (qt, asc, desc) is not supported with count or ids output modes."
    else if optIntTruthy c.limit then
      some "Cannot use limit with output_mode count or ids. Limit is not supported with count or ids output modes."
    else if optStrTruthy c.output_detail ∧ c.output_detail ≠ some "body" then
      some "Only body output_detail is supported with count or ids output modes."
    else none
  else none

/-- The global settings line of `Query.__str__` (section 1). -/
def settingsLines {Q : Type} (c : QueryCore Q) : List String :=
  let settings :=
    (if c.output ≠ "" then ["out:" ++ c.output] else []) ++
    (match c.timeout with
      | some t => ["timeout:" ++ toString t]
      | none => []) ++
    (match c.date with
      | some d => ["date:\"" ++ d ++ "\""]
      | none => []) ++
    (match c.global_bbox with
      | some (s, w, n, e) =>
        ["bbox:" ++ toString s ++ "," ++ toString w ++ "," ++ toString n ++ "," ++ toString e]
      | none => []) ++
    c.settings.filterMap (fun kv =>
      if ["date", "timeout", "bbox", "out"].contains kv.1 then none
      else if ["date", "diff"].contains kv.1 then some (kv.1 ++ ":\"" ++ kv.2 ++ "\"")
      else some (kv.1 ++ ":" ++ kv.2))
  if settings.isEmpty then [] else ["[" ++ String.intercalate " " settings ++ "];"]

/-- The `is_in` lines of `Query.__str__` (section 2). -/
def isInLines {Q : Type} (c : QueryCore Q) : List String :=
  c.is_in_statements.map (fun t =>
    let line := "is_in(" ++ toString t.1 ++ "," ++ toString t.2.1 ++ ")"
    let line :=
      match t.2.2 with
      | some s => if s ≠ "" then line ++ "->." ++ s else line
      | none => line
    line ++ ";")

/-- The statement lines of `Query.__str__` (section 3): each statement is
re-terminated with a single trailing semicolon. -/
def statementLines {Q : Type} (c : QueryCore Q) : List String :=
  c.statements.map (fun st => stripOneSemi st.render ++ ";")

/-- The `convert` lines of `Query.__str__` (section 5). -/
def convertLines {Q : Type} (c : QueryCore Q) : List String :=
  c.convert_statements.map (fun t =>
    let line := "convert " ++ t.1 ++ " " ++ String.intercalate ", " t.2.2
    let line := if t.2.1 ≠ "" then line ++ "->." ++ t.2.1 else line
    line ++ ";")

/-- The output directive of `Query.__str__` (section 6). -/
def outputLines {Q : Type} (c : QueryCore Q) : List String :=
  if c.output_mode = some "count" then ["out count;"]
  else if c.output_mode = some "ids" then ["out ids;"]
  else
    match c.output_detail with
    | some d =>
      let parts := ["out " ++ d] ++
        (match c.sort_order with
          | some s => if s ≠ "" then [s] else []
          | none => []) ++
        (match c.limit with
          | some l => [toString l]
          | none => [])
      [String.intercalate " " parts ++ ";"]
    | none => []

/-- `Query._get_subquery_elements`: keep only the element lines of a rendered
sub-query, dropping settings and output lines and all trailing semicolons. -/
def getSubqueryElements (doc : String) : List String :=
  ((pySplit doc "\n").filter
    (fun line => ¬ strStartsWith line "[" ∧ ¬ strStartsWith line "out " ∧ pyStrip line ≠ "")).map
    rstripSemi

/-- One `foreach` block of `Query.__str__` (section 4); empty sub-queries are
skipped. -/
def foreachBlock (set_name : String) (doc : String) : List String :=
  let els := getSubqueryElements doc
  if els.isEmpty then []
  else ["." ++ set_name ++ " foreach \x7b"] ++ els.map (fun l => "  " ++ l ++ ";") ++ ["\x7d;"]

/-- `Query.__str__`, as the list of lines it joins with newlines: validation
first, then settings, `is_in`, statements, `foreach` blocks (each of which
renders its sub-query in full, so a sub-query validation error propagates),
`convert`, the output directive, and the empty-query fallback. -/
def Query.renderLines : Query → Except String (List String)
  | .mk c =>
    match validateQuery c with
    | some e => .error e
    | none =>
      match c.foreach_statements.attach.mapM
          (fun p => (Query.renderLines p.1.2).map
            (fun ls => foreachBlock p.1.1 (String.intercalate "\n" ls))) with
      | .error e => .error e
      | .ok blocks =>
        let lines := settingsLines c ++ isInLines c ++ statementLines c ++
          blocks.flatten ++ convertLines c ++ outputLines c
        .ok (if lines.isEmpty then ["[out:json];", "out body;"] else lines)
  termination_by q => sizeOf q
  decreasing_by
    simp_wf
    have h1 := List.sizeOf_lt_of_mem p.2
    have h2 : sizeOf p.1.2 < sizeOf p.1 := by
      obtain ⟨⟨a, b⟩, hp⟩ := p
      simp only [Prod.mk.sizeOf_spec]
      omega
    cases c with
    | mk o od ti da gb st ii fe cv so li om se =>
      simp at h1 ⊢
      omega

/-- `Query.__str__`. -/
def Query.render (q : Query) : Except String String :=
  (Query.renderLines q).map (String.intercalate "\n")

/-! ## Query builder methods -/

def Query.with_output (q : Query) (output : String) : Except (String × Query) Query :=
  if ¬ ["json", "csv", "xml"].contains output then
    .error ("Invalid output type, must be one of json, csv, or xml", q)
  else .ok (.mk { q.core with output := output })

def Query.with_output_detail (q : Query) (detail : Option String) :
    Except (String × Query) Query :=
  match detail with
  | some d =>
    if ¬ ["body", "skel", "geom", "tags", "meta", "center"].contains d then
      .error ("Invalid output_detail", q)
    else .ok (.mk { q.core with output_detail := some d })
  | none => .ok (.mk { q.core with output_detail := none })

def Query.with_timeout (q : Query) (timeout : Int) : Except (String × Query) Query :=
  if timeout ≤ 0 then
    .error ("Timeout must be a positive integer", q)
  else .ok (.mk { q.core with timeout := some timeout })

def Query.with_date (q : Query) (date : String) : Except (String × Query) Query :=
  if pyStrip date = "" then
    .error ("Date cannot be empty or whitespace", q)
  else if ¬ (containsChar date 'T' ∧ containsChar date 'Z') then
    .error ("Date must be in ISO 8601 format", q)
  else .ok (.mk { q.core with date := some date })

/-- `Query.with_global_bbox`, through `Query._validate_bbox` (the length and
type checks of the source are enforced by the Lean types). -/
def Query.with_global_bbox (q : Query) (bbox : Int × Int × Int × Int) :
    Except (String × Query) Query :=
  if ¬ (-90 ≤ bbox.1 ∧ bbox.1 ≤ bbox.2.2.1 ∧ bbox.2.2.1 ≤ 90) then
    .error ("Latitude must be between -90 and 90, with min_lat <= max_lat", q)
  else if ¬ (-180 ≤ bbox.2.1 ∧ bbox.2.1 ≤ bbox.2.2.2 ∧ bbox.2.2.2 ≤ 180) then
    .error ("Longitude must be between -180 and 180, with min_lon <= max_lon", q)
  else .ok (.mk { q.core with global_bbox := some bbox })

def Query.with_sort_order (q : Query) (sort_order : String) : Except (String × Query) Query :=
  if ¬ ["qt", "asc", "desc"].contains sort_order then
    .error ("Sort order must be one of qt, asc, desc", q)
  else .ok (.mk { q.core with sort_order := some sort_order })

def Query.with_limit (q : Query) (limit : Int) : Except (String × Query) Query :=
  if limit ≤ 0 then
    .error ("Limit must be a positive integer", q)
  else .ok (.mk { q.core with limit := some limit })

def Query.with_output_mode (q : Query) (mode : Option String) : Except (String × Query) Query :=
  match mode with
  | some m =>
    if ¬ ["count", "ids"].contains m then
      .error ("Output mode must be one of count, ids", q)
    else .ok (.mk { q.core with output_mode := some m })
  | none => .ok (.mk { q.core with output_mode := none })

/-- `Query.with_setting`; the settings dict keeps insertion order and updates
an existing key in place, modelled by an exact-key ordered association list. -/
def Query.with_setting (q : Query) (key value : String) : Except (String × Query) Query :=
  if pyStrip key = "" then
    .error ("key cannot be empty or whitespace", q)
  else if key = "maxsize" ∧ ¬ intParses value then
    .error ("maxsize must be an integer", q)
  else if key = "diff" ∧ ¬ (containsChar value 'T' ∧ containsChar value 'Z') then
    .error ("diff must be in ISO 8601 format", q)
  else .ok (.mk { q.core with settings := updateOrAppendTagExact q.core.settings key value })

def Query.add_node (q : Query) (node : Node) : Query :=
  .mk { q.core with statements := q.core.statements ++ [.node node] }

def Query.add_way (q : Query) (way : Way) : Query :=
  .mk { q.core with statements := q.core.statements ++ [.way way] }

def Query.add_relation (q : Query) (relation : Relation) : Query :=
  .mk { q.core with statements := q.core.statements ++ [.relation relation] }

def Query.add_changeset (q : Query) (changeset : Changeset) : Query :=
  .mk { q.core with statements := q.core.statements ++ [.changeset changeset] }

def Query.add_area (q : Query) (area : Area) : Query :=
  .mk { q.core with statements := q.core.statements ++ [.area area] }

def Query.add_union (q : Query) (elements : List Statement) : Except (String × Query) Query :=
  if elements.isEmpty then
    .error ("At least one element must be provided for a union. Provide at least one Node, Way, Relation, Changeset, or Area.", q)
  else .ok (.mk { q.core with statements := q.core.statements ++ [.union elements] })

def Query.add_difference (q : Query) (base : Statement) (subtract : List Statement) :
    Except (String × Query) Query :=
  if subtract.isEmpty then
    .error ("At least one element must be provided to subtract in a difference. Provide at least one Node, Way, Relation, Changeset, or Area to subtract.", q)
  else .ok (.mk { q.core with statements := q.core.statements ++ [.difference base subtract] })

def Query.add_adiff (q : Query) (adiff : Adiff) : Query :=
  .mk { q.core with statements := q.core.statements ++ [.adiff adiff] }

def Query.add_timeline (q : Query) (timeline : Timeline) : Query :=
  .mk { q.core with statements := q.core.statements ++ [.timeline timeline] }

def Query.add_recurse (q : Query) (recurse : Recurse) : Query :=
  .mk { q.core with statements := q.core.statements ++ [.recurse recurse] }

def Query.add_is_in (q : Query) (lat lon : Int) (set_name : Option String) :
    Except (String × Query) Query :=
  if ¬ (-90 ≤ lat ∧ lat ≤ 90 ∧ -180 ≤ lon ∧ lon ≤ 180) then
    .error ("lat must be between -90 and 90, lon between -180 and 180", q)
  else
    match set_name with
    | some s =>
      if pyStrip s = "" then
        .error ("set_name cannot be empty or whitespace", q)
      else if hasInvalidSetChar s then
        .error ("set_name contains invalid characters for Overpass QL", q)
      else .ok (.mk { q.core with is_in_statements := q.core.is_in_statements ++ [(lat, lon, some s)] })
    | none =>
      .ok (.mk { q.core with is_in_statements := q.core.is_in_statements ++ [(lat, lon, none)] })

/-- `Query.add_foreach`: on success it mutates the passed sub-query
(`subquery.with_output_detail(None)`, which cannot fail) and appends the pair;
the result and error payloads carry both objects so both sides of the
aliasing are observable. -/
def Query.add_foreach (q : Query) (set_name : String) (subquery : Query) :
    Except (String × Query × Query) (Query × Query) :=
  if pyStrip set_name = "" then
    .error ("set_name cannot be empty or whitespace", q, subquery)
  else if hasInvalidSetChar set_name then
    .error ("set_name contains invalid characters for Overpass QL", q, subquery)
  else
    let sub := Query.mk { subquery.core with output_detail := none }
    .ok (.mk { q.core with foreach_statements := q.core.foreach_statements ++ [(set_name, sub)] }, sub)

def Query.add_convert (q : Query) (element_type set_name : String) (tags : List String) :
    Except (String × Query) Query :=
  if ¬ ["node", "way", "relation"].contains element_type then
    .error ("element_type must be one of node, way, relation", q)
  else if pyStrip set_name = "" then
    .error ("set_name cannot be empty or whitespace", q)
  else if hasInvalidSetChar set_name then
    .error ("set_name contains invalid characters for Overpass QL", q)
  else .ok (.mk { q.core with convert_statements := q.core.convert_statements ++ [(element_type, set_name, tags)] })

def Query.add_raw (q : Query) (raw_statement : String) : Except (String × Query) Query :=
  if pyStrip raw_statement = "" then
    .error ("raw_statement cannot be empty or whitespace", q)
  else if ¬ strEndsWith (pyStrip raw_statement) ";" then
    .error ("raw_statement must end with a semicolon for valid Overpass QL syntax", q)
  else .ok (.mk { q.core with statements := q.core.statements ++ [.raw raw_statement] })

/-- `Query.union_with` (no reachable raise: the only check is `isinstance`). -/
def Query.union_with (q other : Query) : Query :=
  if ¬ other.core.statements.isEmpty then
    .mk { q.core with statements := q.core.statements ++ [.union other.core.statements] }
  else q

def Query.difference_with (q other : Query) : Except (String × Query) Query :=
  if q.core.statements.isEmpty then
    .error ("Cannot perform a difference operation because this query has no statements. Add at least one statement to this query first.", q)
  else if other.core.statements.isEmpty then
    .error ("Cannot perform a difference operation because the other query has no statements. Add at least one statement to the other query first.", q)
  else
    match q.core.statements with
    | [] => .error ("Cannot perform a difference operation because this query has no statements. Add at least one statement to this query first.", q)
    | base :: rest =>
      .ok (.mk { q.core with statements := Statement.difference base other.core.statements :: rest })

/-- How many of the five spatial-filter fields are set (`None`-ness, not
truthiness): the quantity the spatial-exclusivity invariant bounds by one. -/
def spatialSetCount (sp : SpatialFields) : Nat :=
  (if sp.bbox.isSome then 1 else 0) + (if sp.area_id.isSome then 1 else 0) +
    (if sp.area_name.isSome then 1 else 0) + (if sp.around_point.isSome then 1 else 0) +
    (if sp.around_set.isSome then 1 else 0)

/-! ## Helper lemmas -/

lemma liftE_atomic {α : Type} {get : α → ElementCommon} {set : α → ElementCommon → α}
    {f : ElementCommon → Except (String × ElementCommon) ElementCommon}
    (hf : ∀ s e t, f s = .error (e, t) → t = s)
    (hset : ∀ a, set a (get a) = a) :
    ∀ a e t, liftE get set f a = .error (e, t) → t = a := by
  intro a e t h
  unfold liftE at h
  cases hfa : f (get a) with
  | ok b => rw [hfa] at h; simp at h
  | error p =>
    rw [hfa] at h
    obtain ⟨e1, b⟩ := p
    have hb := hf (get a) e1 b hfa
    simp only [Except.error.injEq, Prod.mk.injEq] at h
    rw [← h.2, hb, hset]

lemma Statement.render_node (n : Node) : Statement.render (.node n) = n.render := by
  rw [Statement.render]

lemma Statement.render_way (w : Way) : Statement.render (.way w) = w.render := by
  rw [Statement.render]

lemma Statement.render_relation (r : Relation) : Statement.render (.relation r) = r.render := by
  rw [Statement.render]

lemma Statement.render_changeset (c : Changeset) : Statement.render (.changeset c) = c.render := by
  rw [Statement.render]

lemma Statement.render_area (a : Area) : Statement.render (.area a) = a.render := by
  rw [Statement.render]

lemma Statement.render_recurse (r : Recurse) : Statement.render (.recurse r) = r.render := by
  rw [Statement.render]

lemma Statement.render_timeline (t : Timeline) : Statement.render (.timeline t) = t.render := by
  rw [Statement.render]

lemma Statement.render_adiff (a : Adiff) : Statement.render (.adiff a) = a.render := by
  rw [Statement.render]

lemma Statement.render_raw (s : String) : Statement.render (.raw s) = s := by
  rw [Statement.render]

lemma pyStrip_empty : pyStrip "" = "" := rfl

lemma ne_empty_of_pyStrip_ne_empty {s : String} (h : pyStrip s ≠ "") : s ≠ "" := by
  intro hs
  subst hs
  exact h pyStrip_empty

lemma stripOneSemi_append_semi (x : String) : stripOneSemi (x ++ ";") = x := by
  have h1 : strEndsWith (x ++ ";") ";" = true := by
    simp [strEndsWith, List.isSuffixOf, String.data_append, String.instAppend, String.append]
  have h2 : strDropRight (x ++ ";") 1 = x := by
    simp only [strDropRight, String.instAppend, String.append]
    cases x with
    | mk d => simp
  simp [stripOneSemi, h1, h2]

lemma normalizeKey_bang (k : String) : normalizeKey ("!" ++ k) = normalizeKey k := by
  have : ("!" ++ k).data = '!' :: k.data := by
    simp [String.data_append]
  simp [normalizeKey, this]

lemma self_ne_bang (k : String) : ¬ (k = "!" ++ k) := by
  intro h
  have hd := congrArg String.data h
  simp [String.data_append] at hd

lemma updateOrAppendTag_no_match (tags : List (String × String)) (key value : String)
    (h : ∀ kv ∈ tags, normalizeKey kv.1 ≠ normalizeKey key) :
    updateOrAppendTag tags key value = tags ++ [(key, value)] := by
  induction tags with
  | nil => rfl
  | cons a rest ih =>
    rw [updateOrAppendTag]
    rw [if_neg (h a (by simp))]
    rw [ih (fun kv hkv => h kv (by simp [hkv]))]
    simp

lemma updateOrAppendTag_first_match (pre post : List (String × String))
    (old : String × String) (key value : String)
    (hpre : ∀ kv ∈ pre, normalizeKey kv.1 ≠ normalizeKey key)
    (hold : normalizeKey old.1 = normalizeKey key) :
    updateOrAppendTag (pre ++ old :: post) key value = pre ++ (key, value) :: post := by
  induction pre with
  | nil =>
    simp only [List.nil_append]
    rw [updateOrAppendTag, if_pos hold]
  | cons a pre' ih =>
    simp only [List.cons_append]
    rw [updateOrAppendTag, if_neg (hpre a (by simp))]
    rw [ih (fun kv hkv => hpre kv (by simp [hkv]))]

lemma updateOrAppendTag_twice_count (tags : List (String × String)) (k : String)
    (h : (tags.filter (fun kv => decide (normalizeKey kv.1 = normalizeKey k))).length ≤ 1) :
    ((updateOrAppendTag (updateOrAppendTag tags k "") ("!" ++ k) "").filter
      (fun kv => decide (normalizeKey kv.1 = normalizeKey k))).length = 1 := by
  induction tags with
  | nil =>
    simp [updateOrAppendTag, normalizeKey_bang]
  | cons a rest ih =>
    by_cases hm : normalizeKey a.1 = normalizeKey k
    · rw [updateOrAppendTag, if_pos hm, updateOrAppendTag,
        if_pos (by rw [normalizeKey_bang])]
      have hrest : (rest.filter (fun kv => decide (normalizeKey kv.1 = normalizeKey k))) = [] := by
        have h2 := h
        rw [List.filter_cons] at h2
        simp [hm] at h2
        exact List.filter_eq_nil_iff.mpr (fun kv hkv => by simpa using h2 kv.1 kv.2 hkv)
      simp [List.filter_cons, normalizeKey_bang, hrest]
    · rw [updateOrAppendTag, if_neg hm, updateOrAppendTag,
        if_neg (by rw [normalizeKey_bang]; exact hm)]
      have hh : (rest.filter (fun kv => decide (normalizeKey kv.1 = normalizeKey k))).length ≤ 1 := by
        have := h
        simp [List.filter_cons, hm] at this
        simpa using this
      have := ih hh
      simp [List.filter_cons, hm]
      simpa using this

lemma ec_with_id_atomic (s : ElementCommon) (a : Int) (e : String) (t : ElementCommon)
    (h : ElementCommon.with_id s a = .error (e, t)) : t = s := by
  unfold ElementCommon.with_id at h
  repeat' split at h
  all_goals simp_all

lemma ec_with_ids_atomic (s : ElementCommon) (a : List Int) (e : String) (t : ElementCommon)
    (h : ElementCommon.with_ids s a = .error (e, t)) : t = s := by
  unfold ElementCommon.with_ids at h
  repeat' split at h
  all_goals simp_all

lemma ec_with_tag_exists_atomic (s : ElementCommon) (a : String) (e : String) (t : ElementCommon)
    (h : ElementCommon.with_tag_exists s a = .error (e, t)) : t = s := by
  unfold ElementCommon.with_tag_exists at h
  repeat' split at h
  all_goals simp_all

lemma ec_with_tag_not_exists_atomic (s : ElementCommon) (a : String) (e : String) (t : ElementCommon)
    (h : ElementCommon.with_tag_not_exists s a = .error (e, t)) : t = s := by
  unfold ElementCommon.with_tag_not_exists at h
  repeat' split at h
  all_goals simp_all

lemma ec_with_tag_not_atomic (s : ElementCommon) (a b : String) (e : String) (t : ElementCommon)
    (h : ElementCommon.with_tag_not s a b = .error (e, t)) : t = s := by
  unfold ElementCommon.with_tag_not at h
  repeat' split at h
  all_goals simp_all

lemma ec_with_tag_regex_atomic (s : ElementCommon) (a b : String) (e : String) (t : ElementCommon)
    (h : ElementCommon.with_tag_regex s a b = .error (e, t)) : t = s := by
  unfold ElementCommon.with_tag_regex at h
  repeat' split at h
  all_goals simp_all

lemma ec_with_tag_condition_atomic (s : ElementCommon) (a : String) (e : String) (t : ElementCommon)
    (h : ElementCommon.with_tag_condition s a = .error (e, t)) : t = s := by
  unfold ElementCommon.with_tag_condition at h
  repeat' split at h
  all_goals simp_all

lemma ec_with_if_condition_atomic (s : ElementCommon) (a : String) (e : String) (t : ElementCommon)
    (h : ElementCommon.with_if_condition s a = .error (e, t)) : t = s := by
  unfold ElementCommon.with_if_condition at h
  repeat' split at h
  all_goals simp_all

lemma ec_with_pivot_atomic (s : ElementCommon) (a : String) (e : String) (t : ElementCommon)
    (h : ElementCommon.with_pivot s a = .error (e, t)) : t = s := by
  unfold ElementCommon.with_pivot at h
  repeat' split at h
  all_goals simp_all

lemma ec_from_set_atomic (s : ElementCommon) (a : String) (e : String) (t : ElementCommon)
    (h : ElementCommon.from_set s a = .error (e, t)) : t = s := by
  unfold ElementCommon.from_set at h
  repeat' split at h
  all_goals simp_all

lemma ec_store_as_set_atomic (s : ElementCommon) (a : String) (e : String) (t : ElementCommon)
    (h : ElementCommon.store_as_set s a = .error (e, t)) : t = s := by
  unfold ElementCommon.store_as_set at h
  repeat' split at h
  all_goals simp_all

/-! ## Claim theorems -/

/-- C1: the claim states that for Node/Way/Relation at most one of the five
spatial fields can ever be set and that a second spatial `with_*` call raises.
The code tests prior filters with Python truthiness (`any([...])`), so
`with_area_by_id(0)` stores the falsy value `0` and a subsequent spatial call
is NOT rejected: the builder reaches a state with two spatial fields set, in
contradiction with the spec and with the raise conditions documented on the
with_* methods themselves.  This theorem evaluates the embedded code at the
failing input `Node().with_area_by_id(0).with_bbox((0, 0, 1, 1))`. -/
theorem C1_spatial_exclusivity_code_bug :
    (Node.new.with_area_by_id 0).bind (fun n => n.with_bbox (0, 0, 1, 1)) =
      .ok { spatial := { bbox := some (0, 0, 1, 1), area_id := some 0 } } ∧
    spatialSetCount { bbox := some (0, 0, 1, 1), area_id := some 0 } = 2 := by
  exact ⟨rfl, rfl⟩

/-- C2: a fresh Query holding a single Way tagged `highway=primary`, with all
settings and the output directive left at their defaults, renders exactly
`[out:json];`, `way[highway=primary];`, `out body;` joined by newlines. -/
theorem C2_default_way_end_to_end :
    Query.render (Query.add_way Query.new { base := { tags := [("highway", "primary")] } }) =
      .ok ("[out:json];\nway[highway=primary];\nout body;") := by
  simp only [Query.render, Query.add_way, Query.new, Query.core]
  rw [Query.renderLines]
  simp only [statementLines, List.map, Statement.render_way, List.nil_append]
  rfl

/-- C5 counterexample: the claim states that a Recurse with a bound source set
renders `.{s};{d};` (set reference, semicolon, direction, semicolon).  The
code (and its unit tests) separate the set reference from the direction with a
space, not a semicolon: `Recurse(">>", "a")` renders `.a >>;`. -/
theorem C5_recurse_render_counterexample :
    mkRecurse ">>" (some "a") = .ok ⟨">>", some "a"⟩ ∧
    Recurse.render ⟨">>", some "a"⟩ = ".a >>;" ∧
    Recurse.render ⟨">>", some "a"⟩ ≠ ".a;>>;" := by
  refine ⟨rfl, rfl, ?_⟩
  decide

/-- C5 amended: for direction `d ∈ {>>, <<}`, a Recurse with a bound source
set `s` renders `.{s} {d};` (set reference, SPACE, direction, semicolon), and
one with no bound set renders `{d};`. -/
theorem C5_recurse_render_amended (d s : String)
    (hd : d = ">>" ∨ d = "<<") (hs : pyStrip s ≠ "") (hv : ¬ hasInvalidSetChar s) :
    (mkRecurse d (some s)).map Recurse.render = .ok ("." ++ s ++ " " ++ d ++ ";") ∧
    (mkRecurse d none).map Recurse.render = .ok (d ++ ";") := by
  have hne : s ≠ "" := ne_empty_of_pyStrip_ne_empty hs
  rcases hd with rfl | rfl <;>
    simp [mkRecurse, Recurse.render, hs, hv, hne, Except.map]

theorem C5_recurse_render_amended_witness :
    ((mkRecurse ">>" (some "a")).map Recurse.render = .ok (("." ++ "a" ++ " " ++ ">>" ++ ";")) ∧
      (mkRecurse ">>" none).map Recurse.render = .ok (">>" ++ ";")) :=
  C5_recurse_render_amended ">>" "a" (Or.inl rfl) (by decide) (by decide)

/-- C6 counterexample: the claim states Timeline construction fails unless the
wrapped element carries an id or a non-empty ids list.  `Timeline._validate`
only checks the element's type, so wrapping a fresh Node with neither id nor
ids succeeds. -/
theorem C6_timeline_counterexample :
    mkTimeline (.node Node.new) = .ok ⟨.node Node.new⟩ ∧
    Node.new.base.id = none ∧ Node.new.base.ids = [] := ⟨rfl, rfl, rfl⟩

/-- C6 amended: constructing a Timeline succeeds for every wrapped Node, Way
or Relation (the only constructor check is the element type); rendering wraps
the element's own render, shorn of its trailing semicolon, as
`timeline(...);` — in particular `timeline(<kind>(<id-or-ids>));` when the
element carries only an id or ids. -/
theorem C6_timeline_amended :
    (∀ e : TLElem, mkTimeline e = .ok ⟨e⟩) ∧
    (∀ e : TLElem, Timeline.render ⟨e⟩ = "timeline(" ++ stripOneSemi e.render ++ ");") ∧
    (∀ i : Int, Timeline.render ⟨.node { base := { id := some i } }⟩ =
      "timeline(node(" ++ toString i ++ "));") ∧
    (∀ ids : List Int, ¬ ids.isEmpty →
      Timeline.render ⟨.way { base := { ids := ids } }⟩ =
        "timeline(way(" ++ joinCommaInt ids ++ "));") := by
  refine ⟨fun e => rfl, fun e => rfl, fun i => ?_, fun ids h => ?_⟩
  · show "timeline(" ++ stripOneSemi (Node.render { base := { id := some i } }) ++ ");" = _
    have : Node.render { base := { id := some i } } = ("node(" ++ toString i ++ ")") ++ ";" := by
      simp only [Node.render, fromSetClause, idClause, pivotClause, renderTags, ifConditionClauses,
        spatialClauses, storeClause]
      apply String.ext
      simp only [String.data_append, List.append_assoc, String.join, List.map]
      rfl
    rw [this, stripOneSemi_append_semi]
    apply String.ext
    simp only [String.data_append, List.append_assoc]
    rfl
  · show "timeline(" ++ stripOneSemi (Way.render { base := { ids := ids } }) ++ ");" = _
    have : Way.render { base := { ids := ids } } = ("way(" ++ joinCommaInt ids ++ ")") ++ ";" := by
      simp only [Way.render, Way.renderCore, recursionWrap, fromSetClause, idClause, pivotClause,
        renderTags, ifConditionClauses, spatialClauses, storeClause]
      rw [if_neg h]
      simp
      apply String.ext
      simp only [String.data_append, List.append_assoc, String.join, List.map]
      rfl
    rw [this, stripOneSemi_append_semi]
    apply String.ext
    simp only [String.data_append, List.append_assoc]
    rfl

theorem C6_timeline_amended_witness :
    ¬ ([(123 : Int)].isEmpty) ∧
    Timeline.render ⟨.way { base := { ids := [(123 : Int)] } }⟩ =
      "timeline(way(" ++ joinCommaInt [(123 : Int)] ++ "));" :=
  ⟨by decide, C6_timeline_amended.2.2.2 [123] (by decide)⟩

/-- C3: on a tagged Relation with both recursion flags set, render wraps the
whole statement as `( <core> ;>;<)` and the store-as-set suffix together with
the terminating semicolon attach to the OUTER parenthesized group:
`(relation[...];>;<);` without a set, `(relation[...];>;<)->.x;` with one. -/
theorem C3_relation_recursion_wrap (r : Relation)
    (_ht : r.base.tags ≠ []) (hm : r.include_members = true) (hp : r.include_parents = true) :
    (Relation.render r =
      "(" ++ r.renderCore ++ ";>;<)" ++ storeClause r.base.store_as_set_name ++ ";") ∧
    (r.base.store_as_set_name = none →
      Relation.render r = "(" ++ r.renderCore ++ ";>;<);") ∧
    (∀ x : String, x ≠ "" → r.base.store_as_set_name = some x →
      Relation.render r = "(" ++ r.renderCore ++ ";>;<)->." ++ x ++ ";") ∧
    Relation.render
        (((Relation.new.with_tags [("boundary", "administrative")]).with_members).with_parents) =
      "(relation[boundary=administrative];>;<);" ∧
    ((((Relation.new.with_tags [("boundary", "administrative")]).with_members).with_parents).store_as_set
        "x").map Relation.render = .ok "(relation[boundary=administrative];>;<)->.x;" := by
  have hbase : Relation.render r =
      "(" ++ r.renderCore ++ ";>;<)" ++ storeClause r.base.store_as_set_name ++ ";" := by
    simp only [Relation.render, recursionWrap, hm, hp]
    simp only [or_self, if_true]
    apply String.ext
    simp only [String.data_append, List.append_assoc]
    rfl
  refine ⟨hbase, fun hn => ?_, fun x hx hs => ?_, by rfl, by rfl⟩
  · rw [hbase, hn]
    apply String.ext
    simp only [storeClause, String.data_append, List.append_assoc]
    rfl
  · rw [hbase, hs]
    simp only [storeClause, if_pos hx]
    apply String.ext
    simp only [String.data_append, List.append_assoc]
    rfl

theorem C3_relation_recursion_wrap_witness :
    Relation.render
        (((Relation.new.with_tags [("boundary", "administrative")]).with_members).with_parents) =
      "(relation[boundary=administrative];>;<);" :=
  (C3_relation_recursion_wrap
    (((Relation.new.with_tags [("boundary", "administrative")]).with_members).with_parents)
    (by decide) rfl rfl).2.2.2.1

/-- C9: rendering is a pure function of the builder state: two renders of the
same Query with no intervening mutation give identical strings, and equal
states render equal (byte-stable cache keys). -/
theorem C9_render_deterministic :
    (∀ q : Query, Query.render q = Query.render q) ∧
    (∀ q₁ q₂ : Query, q₁ = q₂ → Query.render q₁ = Query.render q₂) :=
  ⟨fun _ => rfl, fun _ _ h => by rw [h]⟩

theorem C9_render_deterministic_witness :
    Query.render Query.new = Query.render Query.new :=
  C9_render_deterministic.2 Query.new Query.new rfl

/-- C10 counterexample: the claim states that after `add_foreach` the passed
sub-query, rendered on its own, no longer emits an output directive.
`add_foreach` only clears `output_detail`; a sub-query whose `output_mode` is
set still renders a final `out count;` directive. -/
theorem C10_add_foreach_counterexample :
    Query.add_foreach Query.new "s"
        (Query.mk { output_mode := some "count", statements := [.raw "node(1);"] }) =
      .ok (Query.mk { foreach_statements :=
              [("s", Query.mk { output_detail := none, output_mode := some "count",
                                statements := [.raw "node(1);"] })] },
           Query.mk { output_detail := none, output_mode := some "count",
                      statements := [.raw "node(1);"] }) ∧
    Query.renderLines (Query.mk { output_detail := none, output_mode := some "count",
                                  statements := [.raw "node(1);"] }) =
      .ok ["[out:json];", "node(1);", "out count;"] := by
  constructor
  · rfl
  · rw [Query.renderLines]
    simp only [statementLines, List.map, Statement.render_raw]
    rfl

/-- C10 amended: `add_foreach(set_name, subquery)` mutates its sub-query
argument by setting `output_detail` to `None` before storing the pair, and
leaves every other field of the sub-query unchanged; the sub-query rendered on
its own then emits no DETAIL-BASED output directive — but when its
`output_mode` is set it still emits `out count;`/`out ids;`. -/
theorem C10_add_foreach_frame (q : Query) (set_name : String) (sub q2 sub2 : Query)
    (h : Query.add_foreach q set_name sub = .ok (q2, sub2)) :
    sub2 = Query.mk { sub.core with output_detail := none } ∧
    q2 = Query.mk { q.core with
      foreach_statements := q.core.foreach_statements ++ [(set_name, sub2)] } ∧
    sub2.core.output = sub.core.output ∧
    sub2.core.output_detail = none ∧
    sub2.core.timeout = sub.core.timeout ∧
    sub2.core.date = sub.core.date ∧
    sub2.core.global_bbox = sub.core.global_bbox ∧
    sub2.core.statements = sub.core.statements ∧
    sub2.core.is_in_statements = sub.core.is_in_statements ∧
    sub2.core.foreach_statements = sub.core.foreach_statements ∧
    sub2.core.convert_statements = sub.core.convert_statements ∧
    sub2.core.sort_order = sub.core.sort_order ∧
    sub2.core.limit = sub.core.limit ∧
    sub2.core.output_mode = sub.core.output_mode ∧
    sub2.core.settings = sub.core.settings ∧
    (sub.core.output_mode = none → outputLines sub2.core = []) := by
  unfold Query.add_foreach at h
  split at h
  · simp at h
  · split at h
    · simp at h
    · simp only [Except.ok.injEq, Prod.mk.injEq] at h
      obtain ⟨hq2, hsub2⟩ := h
      subst hq2
      subst hsub2
      refine ⟨rfl, rfl, rfl, rfl, rfl, rfl, rfl, rfl, rfl, rfl, rfl, rfl, rfl, rfl, rfl, fun hm => ?_⟩
      cases sub with
      | mk c =>
        simp only [Query.core] at hm
        simp [outputLines, Query.core, hm]

theorem C10_add_foreach_frame_witness :
    (Query.mk { output_detail := none, output_mode := some "count",
                statements := [Statement.raw "node(1);"] }) =
      Query.mk { (Query.mk { output_mode := some "count",
                             statements := [Statement.raw "node(1);"] }).core
                 with output_detail := none } :=
  (C10_add_foreach_frame Query.new "s"
    (Query.mk { output_mode := some "count", statements := [Statement.raw "node(1);"] }) _ _ rfl).1


/-- C7: for a Query whose `output_mode` is `count` or `ids`, rendering raises
exactly when a sort order is set, a limit is set, or an output detail other
than the default `body` is set (the reachability hypotheses record the values
the corresponding setters admit); with no conflict, the rendered document's
final line is `out count;` / `out ids;` respectively. -/
theorem C7_output_mode_conflicts (c : QueryCore Query)
    (hm : c.output_mode = some "count" ∨ c.output_mode = some "ids")
    (hs : ∀ s, c.sort_order = some s → s ∈ ["qt", "asc", "desc"])
    (hl : ∀ l, c.limit = some l → 0 < l)
    (hd : ∀ d, c.output_detail = some d → d ∈ ["body", "skel", "geom", "tags", "meta", "center"]) :
    ((c.sort_order.isSome ∨ c.limit.isSome ∨
        (c.output_detail.isSome ∧ c.output_detail ≠ some "body")) →
      ∃ e, Query.render (.mk c) = .error e) ∧
    (c.sort_order = none → c.limit = none →
      (c.output_detail = none ∨ c.output_detail = some "body") →
      ∀ ls, Query.renderLines (.mk c) = .ok ls →
        ls.getLast? = some (if c.output_mode = some "count" then "out count;" else "out ids;")) := by
  have hnone : validateQuery c = none ↔
      (¬ optStrTruthy c.sort_order ∧ ¬ optIntTruthy c.limit ∧
        ¬ (optStrTruthy c.output_detail ∧ c.output_detail ≠ some "body")) := by
    unfold validateQuery
    rw [if_pos hm]
    by_cases h1 : optStrTruthy c.sort_order <;> by_cases h2 : optIntTruthy c.limit <;>
      by_cases h3 : optStrTruthy c.output_detail ∧ c.output_detail ≠ some "body" <;>
      simp [h1, h2, h3]
  constructor
  · intro hconf
    have hne : validateQuery c ≠ none := by
      intro h0
      obtain ⟨n1, n2, n3⟩ := hnone.mp h0
      rcases hconf with h1 | h2 | h3
      · obtain ⟨s, hso⟩ := Option.isSome_iff_exists.mp h1
        have hmem := hs s hso
        apply n1
        rw [hso]
        simp only [List.mem_cons, List.mem_singleton] at hmem
        rcases hmem with rfl | rfl | rfl | h <;> first | decide | simp at h
      · obtain ⟨l, hlo⟩ := Option.isSome_iff_exists.mp h2
        have hpos := hl l hlo
        apply n2
        rw [hlo]
        simp [optIntTruthy]
        omega
      · obtain ⟨hsome, hneb⟩ := h3
        obtain ⟨d, hdo⟩ := Option.isSome_iff_exists.mp hsome
        have hmem := hd d hdo
        apply n3
        refine ⟨?_, hneb⟩
        rw [hdo]
        simp only [List.mem_cons, List.mem_singleton] at hmem
        rcases hmem with rfl | rfl | rfl | rfl | rfl | rfl | h <;> first | decide | simp at h
    obtain ⟨e, he⟩ := Option.ne_none_iff_exists'.mp hne
    refine ⟨e, ?_⟩
    unfold Query.render
    rw [Query.renderLines, he]
    rfl
  · intro h1 h2 h3 ls hls
    have hv : validateQuery c = none := by
      refine hnone.mpr ⟨?_, ?_, ?_⟩
      · simp [h1, optStrTruthy]
      · simp [h2, optIntTruthy]
      · rcases h3 with h | h <;> simp [h, optStrTruthy]
    rw [Query.renderLines, hv] at hls
    have hout : outputLines c = [if c.output_mode = some "count" then "out count;" else "out ids;"] := by
      rcases hm with hmc | hmi
      · simp [outputLines, hmc]
      · simp [outputLines, hmi]
    cases hblocks : (c.foreach_statements.attach.mapM
        (fun p => (Query.renderLines p.1.2).map
          (fun ls => foreachBlock p.1.1 (String.intercalate "\n" ls)))) with
    | error e =>
      rw [hblocks] at hls
      simp at hls
    | ok blocks =>
      rw [hblocks] at hls
      simp only [Except.ok.injEq] at hls
      have hLne : settingsLines c ++ isInLines c ++ statementLines c ++
          blocks.flatten ++ convertLines c ++ outputLines c ≠ [] := by
        rw [hout]
        simp
      rw [if_neg (by simpa using hLne)] at hls
      subst hls
      rw [List.getLast?_append_of_ne_nil _ (by rw [hout]; simp), hout]
      rfl

theorem C7_output_mode_conflicts_witness :
    ∃ e, Query.render (.mk { output_mode := some "count", sort_order := some "qt" }) = .error e :=
  (C7_output_mode_conflicts
      { output_mode := some "count", sort_order := some "qt" }
      (Or.inl rfl)
      (fun s h => by simp only [Option.some.injEq] at h; simp [← h])
      (fun l h => by simp at h)
      (fun d h => by simp only [Option.some.injEq] at h; simp [← h])).1
    (Or.inl rfl)

/-- C4 counterexample: the claim quantifies over EVERY element, and fails in
two ways.  First, tags may legitimately hold two entries for the same logical
key (e.g. set wholesale by `with_tags`, whose only checks are type checks):
starting from `with_tags([("k","a"), ("k","b")])`, the pair
`with_tag_exists("k")` then `with_tag_not_exists("k")` rewrites only the FIRST
entry, so two stored entries for `k` remain and render emits `[!k][k=b]`, not
the single clause `[!k]`.  Second, Changeset overrides
`_update_or_append_tag` with an EXACT key comparison (no `!`-stripping), so on
a fresh Changeset the same pair of calls appends a second entry: tags end as
`[("k",""), ("!k","")]` and render emits `changeset[k][!k];`. -/
theorem C4_tag_update_counterexample :
    (Node.with_tag_exists (Node.new.with_tags [("k", "a"), ("k", "b")]) "k").bind
        (fun n => n.with_tag_not_exists "k") =
      .ok { base := { tags := [("!k", ""), ("k", "b")] } } ∧
    (([("!k", ""), ("k", "b")] : List (String × String)).filter
      (fun kv => decide (normalizeKey kv.1 = normalizeKey "k"))).length = 2 ∧
    Node.render { base := { tags := [("!k", ""), ("k", "b")] } } = "node[!k][k=b];" ∧
    (Changeset.new.with_tag_exists "k").bind (fun c => c.with_tag_not_exists "k") =
      .ok { base := { tags := [("k", ""), ("!k", "")] } } ∧
    (([("k", ""), ("!k", "")] : List (String × String)).filter
      (fun kv => decide (normalizeKey kv.1 = normalizeKey "k"))).length = 2 ∧
    Changeset.render { base := { tags := [("k", ""), ("!k", "")] } } = "changeset[k][!k];" := by
  refine ⟨rfl, by decide, rfl, rfl, by decide, rfl⟩

/-- C4 amended: for Node, Way, Relation and Area — the variants whose
`_update_or_append_tag` compares keys after stripping leading `!` markers —
provided the element stores at most one tag entry for the logical key `k`
(true of every state built through the `with_tag_*` family),
`with_tag_exists(k)` then `with_tag_not_exists(k)` leaves exactly one stored
entry for `k`, located at the position of the first registration of `k`, and a
fresh element of each of these kinds renders the single clause `[!k]`; in
general their `_update_or_append_tag` replaces the first entry with a matching
`lstrip("!")`-normalized key in place and appends only when no entry matches.
Changeset instead compares keys exactly (its own `_update_or_append_tag`
override), so there the same pair of calls stores two separate entries and a
fresh Changeset renders `[k][!k]`. -/
theorem C4_tag_update_amended :
    (∀ (tags : List (String × String)) (key value : String),
      (∀ kv ∈ tags, normalizeKey kv.1 ≠ normalizeKey key) →
      updateOrAppendTag tags key value = tags ++ [(key, value)]) ∧
    (∀ (pre post : List (String × String)) (old : String × String) (key value : String),
      (∀ kv ∈ pre, normalizeKey kv.1 ≠ normalizeKey key) →
      normalizeKey old.1 = normalizeKey key →
      updateOrAppendTag (pre ++ old :: post) key value = pre ++ (key, value) :: post) ∧
    (∀ (tags : List (String × String)) (k : String),
      (tags.filter (fun kv => decide (normalizeKey kv.1 = normalizeKey k))).length ≤ 1 →
      ((updateOrAppendTag (updateOrAppendTag tags k "") ("!" ++ k) "").filter
        (fun kv => decide (normalizeKey kv.1 = normalizeKey k))).length = 1) ∧
    (∀ k : String, pyStrip k ≠ "" →
      ((Node.new.with_tag_exists k).bind (fun n => n.with_tag_not_exists k)).map Node.render =
        .ok ("node[!" ++ k ++ "];")) ∧
    (∀ k : String, pyStrip k ≠ "" →
      ((Way.new.with_tag_exists k).bind (fun w => w.with_tag_not_exists k)).map Way.render =
        .ok ("way[!" ++ k ++ "];")) ∧
    (∀ k : String, pyStrip k ≠ "" →
      ((Relation.new.with_tag_exists k).bind (fun r => r.with_tag_not_exists k)).map
        Relation.render = .ok ("relation[!" ++ k ++ "];")) ∧
    (∀ k : String, pyStrip k ≠ "" →
      ((Area.new.with_tag_exists k).bind (fun a => a.with_tag_not_exists k)).map Area.render =
        .ok ("area[!" ++ k ++ "];")) ∧
    (∀ k : String, pyStrip k ≠ "" →
      ((Changeset.new.with_tag_exists k).bind (fun c => c.with_tag_not_exists k)).map
        Changeset.render = .ok ("changeset[" ++ k ++ "][!" ++ k ++ "];")) := by
  refine ⟨updateOrAppendTag_no_match, updateOrAppendTag_first_match,
    updateOrAppendTag_twice_count, fun k hk => ?_, fun k hk => ?_, fun k hk => ?_,
    fun k hk => ?_, fun k hk => ?_⟩
  · have h1 : Node.new.with_tag_exists k = .ok { base := { tags := [(k, "")] } } := by
      simp [Node.with_tag_exists, Node.new, liftE, ElementCommon.with_tag_exists, hk,
        updateOrAppendTag]
    have h2 : (({ base := { tags := [(k, "")] } } : Node).with_tag_not_exists k) =
        .ok { base := { tags := [("!" ++ k, "")] } } := by
      simp [Node.with_tag_not_exists, liftE, ElementCommon.with_tag_not_exists, hk,
        updateOrAppendTag, normalizeKey_bang]
    have h3 : Node.render { base := { tags := [("!" ++ k, "")] } } = "node[!" ++ k ++ "];" := by
      simp only [Node.render, fromSetClause, idClause, pivotClause, renderTags, renderTagClause,
        ifConditionClauses, spatialClauses, storeClause, List.map, if_true]
      apply String.ext
      simp [String.data_append, String.join]
    rw [h1]
    show (({ base := { tags := [(k, "")] } } : Node).with_tag_not_exists k).map Node.render = _
    rw [h2]
    show Except.ok (Node.render { base := { tags := [("!" ++ k, "")] } }) = _
    rw [h3]
  · have h1 : Way.new.with_tag_exists k = .ok { base := { tags := [(k, "")] } } := by
      simp [Way.with_tag_exists, Way.new, liftE, ElementCommon.with_tag_exists, hk,
        updateOrAppendTag]
    have h2 : (({ base := { tags := [(k, "")] } } : Way).with_tag_not_exists k) =
        .ok { base := { tags := [("!" ++ k, "")] } } := by
      simp [Way.with_tag_not_exists, liftE, ElementCommon.with_tag_not_exists, hk,
        updateOrAppendTag, normalizeKey_bang]
    have h3 : Way.render { base := { tags := [("!" ++ k, "")] } } = "way[!" ++ k ++ "];" := by
      simp only [Way.render, Way.renderCore, recursionWrap, fromSetClause, idClause, pivotClause,
        renderTags, renderTagClause, ifConditionClauses, spatialClauses, storeClause, List.map,
        if_true]
      apply String.ext
      simp [String.data_append, String.join]
    rw [h1]
    show (({ base := { tags := [(k, "")] } } : Way).with_tag_not_exists k).map Way.render = _
    rw [h2]
    show Except.ok (Way.render { base := { tags := [("!" ++ k, "")] } }) = _
    rw [h3]
  · have h1 : Relation.new.with_tag_exists k = .ok { base := { tags := [(k, "")] } } := by
      simp [Relation.with_tag_exists, Relation.new, liftE, ElementCommon.with_tag_exists, hk,
        updateOrAppendTag]
    have h2 : (({ base := { tags := [(k, "")] } } : Relation).with_tag_not_exists k) =
        .ok { base := { tags := [("!" ++ k, "")] } } := by
      simp [Relation.with_tag_not_exists, liftE, ElementCommon.with_tag_not_exists, hk,
        updateOrAppendTag, normalizeKey_bang]
    have h3 : Relation.render { base := { tags := [("!" ++ k, "")] } } =
        "relation[!" ++ k ++ "];" := by
      simp only [Relation.render, Relation.renderCore, recursionWrap, fromSetClause, idClause,
        pivotClause, renderTags, renderTagClause, ifConditionClauses, spatialClauses, storeClause,
        List.map, if_true]
      apply String.ext
      simp [String.data_append, String.join]
    rw [h1]
    show (({ base := { tags := [(k, "")] } } : Relation).with_tag_not_exists k).map
      Relation.render = _
    rw [h2]
    show Except.ok (Relation.render { base := { tags := [("!" ++ k, "")] } }) = _
    rw [h3]
  · have h1 : Area.new.with_tag_exists k = .ok { base := { tags := [(k, "")] } } := by
      simp [Area.with_tag_exists, Area.new, hk, updateOrAppendTag]
    have h2 : (({ base := { tags := [(k, "")] } } : Area).with_tag_not_exists k) =
        .ok { base := { tags := [("!" ++ k, "")] } } := by
      simp [Area.with_tag_not_exists, hk, updateOrAppendTag, normalizeKey_bang]
    have h3 : Area.render { base := { tags := [("!" ++ k, "")] } } = "area[!" ++ k ++ "];" := by
      simp only [Area.render, fromSetClause, idClause, pivotClause, renderTags, renderTagClause,
        ifConditionClauses, storeClause, List.map, if_true]
      apply String.ext
      simp [String.data_append, String.join]
    rw [h1]
    show (({ base := { tags := [(k, "")] } } : Area).with_tag_not_exists k).map Area.render = _
    rw [h2]
    show Except.ok (Area.render { base := { tags := [("!" ++ k, "")] } }) = _
    rw [h3]
  · have h1 : Changeset.new.with_tag_exists k = .ok { base := { tags := [(k, "")] } } := by
      simp [Changeset.with_tag_exists, Changeset.new, hk, updateOrAppendTagExact]
    have h2 : (({ base := { tags := [(k, "")] } } : Changeset).with_tag_not_exists k) =
        .ok { base := { tags := [(k, ""), ("!" ++ k, "")] } } := by
      simp [Changeset.with_tag_not_exists, hk, updateOrAppendTagExact, self_ne_bang]
    have h3 : Changeset.render { base := { tags := [(k, ""), ("!" ++ k, "")] } } =
        "changeset[" ++ k ++ "][!" ++ k ++ "];" := by
      simp only [Changeset.render, fromSetClause, idClause, renderTags, renderTagClause,
        ifConditionClauses, storeClause, List.map, if_true]
      apply String.ext
      simp [String.data_append, String.join]
    rw [h1]
    show (({ base := { tags := [(k, "")] } } : Changeset).with_tag_not_exists k).map
      Changeset.render = _
    rw [h2]
    show Except.ok (Changeset.render { base := { tags := [(k, ""), ("!" ++ k, "")] } }) = _
    rw [h3]

theorem C4_tag_update_amended_witness :
    pyStrip "k" ≠ "" ∧
    ((Node.new.with_tag_exists "k").bind (fun n => n.with_tag_not_exists "k")).map Node.render =
      .ok ("node[!" ++ "k" ++ "];") ∧
    ((Changeset.new.with_tag_exists "k").bind (fun c => c.with_tag_not_exists "k")).map
      Changeset.render = .ok ("changeset[" ++ "k" ++ "][!" ++ "k" ++ "];") :=
  ⟨by decide, C4_tag_update_amended.2.2.2.1 "k" (by decide),
    C4_tag_update_amended.2.2.2.2.2.2.2 "k" (by decide)⟩

set_option maxHeartbeats 3200000 in
/-- C8: atomicity on error — every fallible builder method of every embedded
entity (the shared Element base, Node, Way, Relation, Changeset, Area and
Query), at every input, leaves the entity exactly as it was whenever it raises:
each conjunct states that an `.error` outcome carries the unchanged input
state.  (Methods with no reachable raise — `with_tags`, `with_closed`,
`with_nodes`, `with_members`, `with_parents`, `with_open`, the `add_<element>`
appenders and `union_with` — are embedded as pure functions and satisfy the
claim vacuously.) -/
theorem C8_builder_atomicity_on_error :
    (∀ (s : ElementCommon) (a : Int) (e : String) (t : ElementCommon),
      ElementCommon.with_id s a = .error (e, t) → t = s) ∧
    (∀ (s : ElementCommon) (a : List Int) (e : String) (t : ElementCommon),
      ElementCommon.with_ids s a = .error (e, t) → t = s) ∧
    (∀ (s : ElementCommon) (a : String) (e : String) (t : ElementCommon),
      ElementCommon.with_tag_exists s a = .error (e, t) → t = s) ∧
    (∀ (s : ElementCommon) (a : String) (e : String) (t : ElementCommon),
      ElementCommon.with_tag_not_exists s a = .error (e, t) → t = s) ∧
    (∀ (s : ElementCommon) (a b : String) (e : String) (t : ElementCommon),
      ElementCommon.with_tag_not s a b = .error (e, t) → t = s) ∧
    (∀ (s : ElementCommon) (a b : String) (e : String) (t : ElementCommon),
      ElementCommon.with_tag_regex s a b = .error (e, t) → t = s) ∧
    (∀ (s : ElementCommon) (a : String) (e : String) (t : ElementCommon),
      ElementCommon.with_tag_condition s a = .error (e, t) → t = s) ∧
    (∀ (s : ElementCommon) (a : String) (e : String) (t : ElementCommon),
      ElementCommon.with_if_condition s a = .error (e, t) → t = s) ∧
    (∀ (s : ElementCommon) (a : String) (e : String) (t : ElementCommon),
      ElementCommon.with_pivot s a = .error (e, t) → t = s) ∧
    (∀ (s : ElementCommon) (a : String) (e : String) (t : ElementCommon),
      ElementCommon.from_set s a = .error (e, t) → t = s) ∧
    (∀ (s : ElementCommon) (a : String) (e : String) (t : ElementCommon),
      ElementCommon.store_as_set s a = .error (e, t) → t = s) ∧
    (∀ (s : Node) (a : Int) (e : String) (t : Node),
      Node.with_id s a = .error (e, t) → t = s) ∧
    (∀ (s : Node) (a : List Int) (e : String) (t : Node),
      Node.with_ids s a = .error (e, t) → t = s) ∧
    (∀ (s : Node) (a : String) (e : String) (t : Node),
      Node.with_tag_exists s a = .error (e, t) → t = s) ∧
    (∀ (s : Node) (a : String) (e : String) (t : Node),
      Node.with_tag_not_exists s a = .error (e, t) → t = s) ∧
    (∀ (s : Node) (a b : String) (e : String) (t : Node),
      Node.with_tag_not s a b = .error (e, t) → t = s) ∧
    (∀ (s : Node) (a b : String) (e : String) (t : Node),
      Node.with_tag_regex s a b = .error (e, t) → t = s) ∧
    (∀ (s : Node) (a : String) (e : String) (t : Node),
      Node.with_tag_condition s a = .error (e, t) → t = s) ∧
    (∀ (s : Node) (a : String) (e : String) (t : Node),
      Node.with_if_condition s a = .error (e, t) → t = s) ∧
    (∀ (s : Node) (a : String) (e : String) (t : Node),
      Node.with_pivot s a = .error (e, t) → t = s) ∧
    (∀ (s : Node) (a : String) (e : String) (t : Node),
      Node.from_set s a = .error (e, t) → t = s) ∧
    (∀ (s : Node) (a : String) (e : String) (t : Node),
      Node.store_as_set s a = .error (e, t) → t = s) ∧
    (∀ (s : Node) (a : Int × Int × Int × Int) (e : String) (t : Node),
      Node.with_bbox s a = .error (e, t) → t = s) ∧
    (∀ (s : Node) (a : Int) (e : String) (t : Node),
      Node.with_area_by_id s a = .error (e, t) → t = s) ∧
    (∀ (s : Node) (a : String) (e : String) (t : Node),
      Node.with_area_by_name s a = .error (e, t) → t = s) ∧
    (∀ (s : Node) (a b c : Int) (e : String) (t : Node),
      Node.with_around_point s a b c = .error (e, t) → t = s) ∧
    (∀ (s : Node) (a : String) (b : Int) (e : String) (t : Node),
      Node.with_around_set s a b = .error (e, t) → t = s) ∧
    (∀ (s : Node) (a : Int) (e : String) (t : Node),
      Node.with_relation s a = .error (e, t) → t = s) ∧
    (∀ (s : Node) (a : Int) (b : String) (e : String) (t : Node),
      Node.with_relation_and_role s a b = .error (e, t) → t = s) ∧
    (∀ (s : Node) (a : String) (e : String) (t : Node),
      Node.with_relation_from_set s a = .error (e, t) → t = s) ∧
    (∀ (s : Node) (a : Int) (e : String) (t : Node),
      Node.with_way s a = .error (e, t) → t = s) ∧
    (∀ (s : Node) (a : String) (e : String) (t : Node),
      Node.with_way_from_set s a = .error (e, t) → t = s) ∧
    (∀ (s : Node) (a : String) (e : String) (t : Node),
      Node.with_user s a = .error (e, t) → t = s) ∧
    (∀ (s : Node) (a : Int) (e : String) (t : Node),
      Node.with_uid s a = .error (e, t) → t = s) ∧
    (∀ (s : Node) (a : String) (e : String) (t : Node),
      Node.with_newer s a = .error (e, t) → t = s) ∧
    (∀ (s : Node) (a : Int) (e : String) (t : Node),
      Node.with_version s a = .error (e, t) → t = s) ∧
    (∀ (s : Way) (a : Int) (e : String) (t : Way),
      Way.with_id s a = .error (e, t) → t = s) ∧
    (∀ (s : Way) (a : List Int) (e : String) (t : Way),
      Way.with_ids s a = .error (e, t) → t = s) ∧
    (∀ (s : Way) (a : String) (e : String) (t : Way),
      Way.with_tag_exists s a = .error (e, t) → t = s) ∧
    (∀ (s : Way) (a : String) (e : String) (t : Way),
      Way.with_tag_not_exists s a = .error (e, t) → t = s) ∧
    (∀ (s : Way) (a b : String) (e : String) (t : Way),
      Way.with_tag_not s a b = .error (e, t) → t = s) ∧
    (∀ (s : Way) (a b : String) (e : String) (t : Way),
      Way.with_tag_regex s a b = .error (e, t) → t = s) ∧
    (∀ (s : Way) (a : String) (e : String) (t : Way),
      Way.with_tag_condition s a = .error (e, t) → t = s) ∧
    (∀ (s : Way) (a : String) (e : String) (t : Way),
      Way.with_if_condition s a = .error (e, t) → t = s) ∧
    (∀ (s : Way) (a : String) (e : String) (t : Way),
      Way.with_pivot s a = .error (e, t) → t = s) ∧
    (∀ (s : Way) (a : String) (e : String) (t : Way),
      Way.from_set s a = .error (e, t) → t = s) ∧
    (∀ (s : Way) (a : String) (e : String) (t : Way),
      Way.store_as_set s a = .error (e, t) → t = s) ∧
    (∀ (s : Way) (a : Int × Int × Int × Int) (e : String) (t : Way),
      Way.with_bbox s a = .error (e, t) → t = s) ∧
    (∀ (s : Way) (a : Int) (e : String) (t : Way),
      Way.with_area_by_id s a = .error (e, t) → t = s) ∧
    (∀ (s : Way) (a : String) (e : String) (t : Way),
      Way.with_area_by_name s a = .error (e, t) → t = s) ∧
    (∀ (s : Way) (a b c : Int) (e : String) (t : Way),
      Way.with_around_point s a b c = .error (e, t) → t = s) ∧
    (∀ (s : Way) (a : String) (b : Int) (e : String) (t : Way),
      Way.with_around_set s a b = .error (e, t) → t = s) ∧
    (∀ (s : Way) (a : Int) (e : String) (t : Way),
      Way.with_node s a = .error (e, t) → t = s) ∧
    (∀ (s : Way) (a : String) (e : String) (t : Way),
      Way.with_node_from_set s a = .error (e, t) → t = s) ∧
    (∀ (s : Way) (a : Int) (e : String) (t : Way),
      Way.with_relation s a = .error (e, t) → t = s) ∧
    (∀ (s : Way) (a : Int) (b : String) (e : String) (t : Way),
      Way.with_relation_and_role s a b = .error (e, t) → t = s) ∧
    (∀ (s : Way) (a : String) (e : String) (t : Way),
      Way.with_relation_from_set s a = .error (e, t) → t = s) ∧
    (∀ (s : Way) (a : Int) (e : String) (t : Way),
      Way.with_min_length s a = .error (e, t) → t = s) ∧
    (∀ (s : Way) (a : Int) (e : String) (t : Way),
      Way.with_min_nodes s a = .error (e, t) → t = s) ∧
    (∀ (s : Way) (a : String) (e : String) (t : Way),
      Way.with_user s a = .error (e, t) → t = s) ∧
    (∀ (s : Way) (a : Int) (e : String) (t : Way),
      Way.with_uid s a = .error (e, t) → t = s) ∧
    (∀ (s : Way) (a : String) (e : String) (t : Way),
      Way.with_newer s a = .error (e, t) → t = s) ∧
    (∀ (s : Way) (a : Int) (e : String) (t : Way),
      Way.with_version s a = .error (e, t) → t = s) ∧
    (∀ (s : Relation) (a : Int) (e : String) (t : Relation),
      Relation.with_id s a = .error (e, t) → t = s) ∧
    (∀ (s : Relation) (a : List Int) (e : String) (t : Relation),
      Relation.with_ids s a = .error (e, t) → t = s) ∧
    (∀ (s : Relation) (a : String) (e : String) (t : Relation),
      Relation.with_tag_exists s a = .error (e, t) → t = s) ∧
    (∀ (s : Relation) (a : String) (e : String) (t : Relation),
      Relation.with_tag_not_exists s a = .error (e, t) → t = s) ∧
    (∀ (s : Relation) (a b : String) (e : String) (t : Relation),
      Relation.with_tag_not s a b = .error (e, t) → t = s) ∧
    (∀ (s : Relation) (a b : String) (e : String) (t : Relation),
      Relation.with_tag_regex s a b = .error (e, t) → t = s) ∧
    (∀ (s : Relation) (a : String) (e : String) (t : Relation),
      Relation.with_tag_condition s a = .error (e, t) → t = s) ∧
    (∀ (s : Relation) (a : String) (e : String) (t : Relation),
      Relation.with_if_condition s a = .error (e, t) → t = s) ∧
    (∀ (s : Relation) (a : String) (e : String) (t : Relation),
      Relation.with_pivot s a = .error (e, t) → t = s) ∧
    (∀ (s : Relation) (a : String) (e : String) (t : Relation),
      Relation.from_set s a = .error (e, t) → t = s) ∧
    (∀ (s : Relation) (a : String) (e : String) (t : Relation),
      Relation.store_as_set s a = .error (e, t) → t = s) ∧
    (∀ (s : Relation) (a : String) (e : String) (t : Relation),
      Relation.with_type s a = .error (e, t) → t = s) ∧
    (∀ (s : Relation) (a : Int) (e : String) (t : Relation),
      Relation.with_min_members s a = .error (e, t) → t = s) ∧
    (∀ (s : Relation) (a : String) (b : Int) (e : String) (t : Relation),
      Relation.with_min_role_count s a b = .error (e, t) → t = s) ∧
    (∀ (s : Relation) (a : Int × Int × Int × Int) (e : String) (t : Relation),
      Relation.with_bbox s a = .error (e, t) → t = s) ∧
    (∀ (s : Relation) (a : Int) (e : String) (t : Relation),
      Relation.with_area_by_id s a = .error (e, t) → t = s) ∧
    (∀ (s : Relation) (a : String) (e : String) (t : Relation),
      Relation.with_area_by_name s a = .error (e, t) → t = s) ∧
    (∀ (s : Relation) (a b c : Int) (e : String) (t : Relation),
      Relation.with_around_point s a b c = .error (e, t) → t = s) ∧
    (∀ (s : Relation) (a : String) (b : Int) (e : String) (t : Relation),
      Relation.with_around_set s a b = .error (e, t) → t = s) ∧
    (∀ (s : Relation) (a : Int) (e : String) (t : Relation),
      Relation.with_node s a = .error (e, t) → t = s) ∧
    (∀ (s : Relation) (a : String) (e : String) (t : Relation),
      Relation.with_node_from_set s a = .error (e, t) → t = s) ∧
    (∀ (s : Relation) (a : Int) (e : String) (t : Relation),
      Relation.with_way s a = .error (e, t) → t = s) ∧
    (∀ (s : Relation) (a : String) (e : String) (t : Relation),
      Relation.with_way_from_set s a = .error (e, t) → t = s) ∧
    (∀ (s : Relation) (a : Int) (e : String) (t : Relation),
      Relation.with_relation s a = .error (e, t) → t = s) ∧
    (∀ (s : Relation) (a : Int) (b : String) (e : String) (t : Relation),
      Relation.with_relation_and_role s a b = .error (e, t) → t = s) ∧
    (∀ (s : Relation) (a : String) (e : String) (t : Relation),
      Relation.with_relation_from_set s a = .error (e, t) → t = s) ∧
    (∀ (s : Relation) (a : String) (e : String) (t : Relation),
      Relation.with_user s a = .error (e, t) → t = s) ∧
    (∀ (s : Relation) (a : Int) (e : String) (t : Relation),
      Relation.with_uid s a = .error (e, t) → t = s) ∧
    (∀ (s : Relation) (a : String) (e : String) (t : Relation),
      Relation.with_newer s a = .error (e, t) → t = s) ∧
    (∀ (s : Relation) (a : Int) (e : String) (t : Relation),
      Relation.with_version s a = .error (e, t) → t = s) ∧
    (∀ (s : Changeset) (a : Int) (e : String) (t : Changeset),
      Changeset.with_id s a = .error (e, t) → t = s) ∧
    (∀ (s : Changeset) (a : List Int) (e : String) (t : Changeset),
      Changeset.with_ids s a = .error (e, t) → t = s) ∧
    (∀ (s : Changeset) (a : Int × Int × Int × Int) (e : String) (t : Changeset),
      Changeset.with_bbox s a = .error (e, t) → t = s) ∧
    (∀ (s : Changeset) (a : String) (e : String) (t : Changeset),
      Changeset.with_user s a = .error (e, t) → t = s) ∧
    (∀ (s : Changeset) (a : Int) (e : String) (t : Changeset),
      Changeset.with_uid s a = .error (e, t) → t = s) ∧
    (∀ (s : Changeset) (a : String) (e : String) (t : Changeset),
      Changeset.with_time s a = .error (e, t) → t = s) ∧
    (∀ (s : Changeset) (a b : String) (e : String) (t : Changeset),
      Changeset.with_time_range s a b = .error (e, t) → t = s) ∧
    (∀ (s : Changeset) (a : String) (e : String) (t : Changeset),
      Changeset.with_comment s a = .error (e, t) → t = s) ∧
    (∀ (s : Changeset) (a : String) (e : String) (t : Changeset),
      Changeset.with_created_by s a = .error (e, t) → t = s) ∧
    (∀ (s : Changeset) (a : String) (e : String) (t : Changeset),
      Changeset.with_tag_exists s a = .error (e, t) → t = s) ∧
    (∀ (s : Changeset) (a : String) (e : String) (t : Changeset),
      Changeset.with_tag_not_exists s a = .error (e, t) → t = s) ∧
    (∀ (s : Changeset) (a b : String) (e : String) (t : Changeset),
      Changeset.with_tag_not s a b = .error (e, t) → t = s) ∧
    (∀ (s : Changeset) (a b : String) (e : String) (t : Changeset),
      Changeset.with_tag_regex s a b = .error (e, t) → t = s) ∧
    (∀ (s : Changeset) (a : String) (e : String) (t : Changeset),
      Changeset.with_tag_condition s a = .error (e, t) → t = s) ∧
    (∀ (s : Changeset) (a : String) (e : String) (t : Changeset),
      Changeset.from_set s a = .error (e, t) → t = s) ∧
    (∀ (s : Changeset) (a : String) (e : String) (t : Changeset),
      Changeset.store_as_set s a = .error (e, t) → t = s) ∧
    (∀ (s : Area) (a : Int) (e : String) (t : Area),
      Area.with_id s a = .error (e, t) → t = s) ∧
    (∀ (s : Area) (a : String) (e : String) (t : Area),
      Area.with_pivot s a = .error (e, t) → t = s) ∧
    (∀ (s : Area) (a : String) (e : String) (t : Area),
      Area.with_boundary s a = .error (e, t) → t = s) ∧
    (∀ (s : Area) (a : String) (e : String) (t : Area),
      Area.with_name s a = .error (e, t) → t = s) ∧
    (∀ (s : Area) (a : String) (e : String) (t : Area),
      Area.from_set s a = .error (e, t) → t = s) ∧
    (∀ (s : Area) (a : String) (e : String) (t : Area),
      Area.with_tag_exists s a = .error (e, t) → t = s) ∧
    (∀ (s : Area) (a : String) (e : String) (t : Area),
      Area.with_tag_not_exists s a = .error (e, t) → t = s) ∧
    (∀ (s : Area) (a b : String) (e : String) (t : Area),
      Area.with_tag_not s a b = .error (e, t) → t = s) ∧
    (∀ (s : Area) (a b : String) (e : String) (t : Area),
      Area.with_tag_regex s a b = .error (e, t) → t = s) ∧
    (∀ (s : Area) (a : String) (e : String) (t : Area),
      Area.with_tag_condition s a = .error (e, t) → t = s) ∧
    (∀ (s : Area) (a : String) (e : String) (t : Area),
      Area.store_as_set s a = .error (e, t) → t = s) ∧
    (∀ (s : Query) (a : String) (e : String) (t : Query),
      Query.with_output s a = .error (e, t) → t = s) ∧
    (∀ (s : Query) (a : Option String) (e : String) (t : Query),
      Query.with_output_detail s a = .error (e, t) → t = s) ∧
    (∀ (s : Query) (a : Int) (e : String) (t : Query),
      Query.with_timeout s a = .error (e, t) → t = s) ∧
    (∀ (s : Query) (a : String) (e : String) (t : Query),
      Query.with_date s a = .error (e, t) → t = s) ∧
    (∀ (s : Query) (a : Int × Int × Int × Int) (e : String) (t : Query),
      Query.with_global_bbox s a = .error (e, t) → t = s) ∧
    (∀ (s : Query) (a : String) (e : String) (t : Query),
      Query.with_sort_order s a = .error (e, t) → t = s) ∧
    (∀ (s : Query) (a : Int) (e : String) (t : Query),
      Query.with_limit s a = .error (e, t) → t = s) ∧
    (∀ (s : Query) (a : Option String) (e : String) (t : Query),
      Query.with_output_mode s a = .error (e, t) → t = s) ∧
    (∀ (s : Query) (a b : String) (e : String) (t : Query),
      Query.with_setting s a b = .error (e, t) → t = s) ∧
    (∀ (s : Query) (a : List Statement) (e : String) (t : Query),
      Query.add_union s a = .error (e, t) → t = s) ∧
    (∀ (s : Query) (a : Statement) (b : List Statement) (e : String) (t : Query),
      Query.add_difference s a b = .error (e, t) → t = s) ∧
    (∀ (s : Query) (a b : Int) (c : Option String) (e : String) (t : Query),
      Query.add_is_in s a b c = .error (e, t) → t = s) ∧
    (∀ (s : Query) (a b : String) (c : List String) (e : String) (t : Query),
      Query.add_convert s a b c = .error (e, t) → t = s) ∧
    (∀ (s : Query) (a : String) (e : String) (t : Query),
      Query.add_raw s a = .error (e, t) → t = s) ∧
    (∀ (s : Query) (a : Query) (e : String) (t : Query),
      Query.difference_with s a = .error (e, t) → t = s) ∧
    (∀ (q : Query) (n : String) (sub : Query) (e : String) (q2 sub2 : Query),
      Query.add_foreach q n sub = .error (e, q2, sub2) → q2 = q ∧ sub2 = sub) := by
  refine ⟨?_, ?_, ?_, ?_, ?_, ?_, ?_, ?_, ?_, ?_, ?_, ?_, ?_, ?_, ?_, ?_, ?_, ?_, ?_, ?_, ?_, ?_, ?_, ?_, ?_, ?_, ?_, ?_, ?_, ?_, ?_, ?_, ?_, ?_, ?_, ?_, ?_, ?_, ?_, ?_, ?_, ?_, ?_, ?_, ?_, ?_, ?_, ?_, ?_, ?_, ?_, ?_, ?_, ?_, ?_, ?_, ?_, ?_, ?_, ?_, ?_, ?_, ?_, ?_, ?_, ?_, ?_, ?_, ?_, ?_, ?_, ?_, ?_, ?_, ?_, ?_, ?_, ?_, ?_, ?_, ?_, ?_, ?_, ?_, ?_, ?_, ?_, ?_, ?_, ?_, ?_, ?_, ?_, ?_, ?_, ?_, ?_, ?_, ?_, ?_, ?_, ?_, ?_, ?_, ?_, ?_, ?_, ?_, ?_, ?_, ?_, ?_, ?_, ?_, ?_, ?_, ?_, ?_, ?_, ?_, ?_, ?_, ?_, ?_, ?_, ?_, ?_, ?_, ?_, ?_, ?_, ?_, ?_, ?_, ?_, ?_⟩
  all_goals intros
  all_goals rename_i h
  all_goals first
    | exact liftE_atomic (fun s e t h2 => ec_with_id_atomic s _ e t h2) (fun _ => rfl) _ _ _ h
    | exact liftE_atomic (fun s e t h2 => ec_with_ids_atomic s _ e t h2) (fun _ => rfl) _ _ _ h
    | exact liftE_atomic (fun s e t h2 => ec_with_tag_exists_atomic s _ e t h2) (fun _ => rfl) _ _ _ h
    | exact liftE_atomic (fun s e t h2 => ec_with_tag_not_exists_atomic s _ e t h2) (fun _ => rfl) _ _ _ h
    | exact liftE_atomic (fun s e t h2 => ec_with_tag_not_atomic s _ _ e t h2) (fun _ => rfl) _ _ _ h
    | exact liftE_atomic (fun s e t h2 => ec_with_tag_regex_atomic s _ _ e t h2) (fun _ => rfl) _ _ _ h
    | exact liftE_atomic (fun s e t h2 => ec_with_tag_condition_atomic s _ e t h2) (fun _ => rfl) _ _ _ h
    | exact liftE_atomic (fun s e t h2 => ec_with_if_condition_atomic s _ e t h2) (fun _ => rfl) _ _ _ h
    | exact liftE_atomic (fun s e t h2 => ec_with_pivot_atomic s _ e t h2) (fun _ => rfl) _ _ _ h
    | exact liftE_atomic (fun s e t h2 => ec_from_set_atomic s _ e t h2) (fun _ => rfl) _ _ _ h
    | exact liftE_atomic (fun s e t h2 => ec_store_as_set_atomic s _ e t h2) (fun _ => rfl) _ _ _ h
    | (unfold Query.with_output_detail at h
       repeat' split at h
       all_goals simp_all)
    | (unfold Query.with_output_mode at h
       repeat' split at h
       all_goals simp_all)
    | (unfold Area.with_pivot at h
       split at h
       all_goals first
         | exact liftE_atomic (fun s e t h2 => ec_with_pivot_atomic s _ e t h2) (fun _ => rfl) _ _ _ h
         | simp_all)
    | (simp only [ElementCommon.with_id, ElementCommon.with_ids, ElementCommon.with_tag_exists,
         ElementCommon.with_tag_not_exists, ElementCommon.with_tag_not, ElementCommon.with_tag_regex,
         ElementCommon.with_tag_condition, ElementCommon.with_if_condition, ElementCommon.with_pivot,
         ElementCommon.from_set, ElementCommon.store_as_set, Node.with_bbox, Node.with_area_by_id,
         Node.with_area_by_name, Node.with_around_point, Node.with_around_set, Node.with_relation,
         Node.with_relation_and_role, Node.with_relation_from_set, Node.with_way, Node.with_way_from_set,
         Node.with_user, Node.with_uid, Node.with_newer, Node.with_version, Way.with_bbox,
         Way.with_area_by_id, Way.with_area_by_name, Way.with_around_point, Way.with_around_set,
         Way.with_node, Way.with_node_from_set, Way.with_relation, Way.with_relation_and_role,
         Way.with_relation_from_set, Way.with_min_length, Way.with_min_nodes, Way.with_user,
         Way.with_uid, Way.with_newer, Way.with_version, Relation.with_type, Relation.with_min_members,
         Relation.with_min_role_count, Relation.with_bbox, Relation.with_area_by_id,
         Relation.with_area_by_name, Relation.with_around_point, Relation.with_around_set,
         Relation.with_node, Relation.with_node_from_set, Relation.with_way, Relation.with_way_from_set,
         Relation.with_relation, Relation.with_relation_and_role, Relation.with_relation_from_set,
         Relation.with_user, Relation.with_uid, Relation.with_newer, Relation.with_version,
         Changeset.with_id, Changeset.with_ids, Changeset.with_bbox, Changeset.with_user,
         Changeset.with_uid, Changeset.with_time, Changeset.with_time_range, Changeset.with_comment,
         Changeset.with_created_by, Changeset.with_tag_exists, Changeset.with_tag_not_exists,
         Changeset.with_tag_not, Changeset.with_tag_regex, Changeset.with_tag_condition,
         Changeset.from_set, Changeset.store_as_set, Area.with_id, Area.with_boundary, Area.with_name,
         Area.from_set, Area.with_tag_exists, Area.with_tag_not_exists, Area.with_tag_not,
         Area.with_tag_regex, Area.with_tag_condition, Area.store_as_set, Query.with_output,
         Query.with_output_detail, Query.with_timeout, Query.with_date, Query.with_global_bbox,
         Query.with_sort_order, Query.with_limit, Query.with_output_mode, Query.with_setting,
         Query.add_union, Query.add_difference, Query.add_is_in, Query.add_convert, Query.add_raw,
         Query.difference_with, Query.add_foreach] at h
       repeat' split at h
       all_goals simp_all)

theorem C8_builder_atomicity_on_error_witness :
    ({ ids := [1] } : ElementCommon) = { ids := [1] } :=
  C8_builder_atomicity_on_error.1 { ids := [1] } 5
    "Cannot set id because ids is already set. Use either with_id() or with_ids(), not both."
    { ids := [1] } rfl

end OPQB
